import Mathlib

/-!
# Website popup widgets (`addons/website/static/src/snippets/s_popup/000.js`)

A shallow embedding of the four public widgets of the file:
`SharedPopupWidget`, `PopupWidget`, `noBackdropPopupWidget` and `cookies_bar`.

Every method of a widget touches its own fields (`this`) and a few global
collaborators: the cookie store, the timers of the window, the handlers bound on
`document` under the jQuery name `mouseleave.open_popup`, the Bootstrap modal of the
popup, the `resize` listeners of the window and the `ResizeObserver`s it created.
A method is therefore embedded as a function from the fields of the instance and
the global state to the new fields and the new global state.
-/

namespace SPopup

/-! ## Values, cookies -/

/-- JavaScript truthiness of a string: only the empty string is falsy. -/
def truthy (s : String) : Bool := s != ""

/-- How a call ends: it returns, or it throws; either way it leaves a state
behind (what it wrote before the exception stays written). -/
inductive Outcome (σ : Type) where
  | returned (s : σ)
  | threw (s : σ)
  deriving DecidableEq, Repr

/-- The state a call leaves behind. -/
def Outcome.state {σ : Type} : Outcome σ → σ
  | .returned s => s
  | .threw s => s

/-- The values the widgets hand to `setCookie` as cookie value: the boolean of
`cookieValue: true` or a string. -/
inductive CookieValue where
  | bool (b : Bool)
  | str (s : String)
  deriving DecidableEq, Repr

/-- String conversion of a cookie value, as a template literal does it. -/
def CookieValue.toStr : CookieValue → String
  | .bool true => "true"
  | .bool false => "false"
  | .str s => s

/-- The values the widgets hand to `setCookie` as cookie name: a string, or (for
`trackingFields[key]` with a key that `trackingFields` only inherits) the member
of `Object.prototype` of that name, or undefined. -/
inductive CookieName where
  | str (s : String)
  | inherited (member : String)
  | undefined
  deriving DecidableEq, Repr

/-- One entry of the cookie store: the four arguments of a `setCookie` call. -/
structure Cookie where
  name : CookieName
  value : CookieValue
  ttl : Nat
  type : String
  deriving DecidableEq, Repr

/-- Modelled from the spec: `setCookie` of `web.utils.cookies` (not in this file),
the write of the persisted key/value flag store with per-key expiration in
seconds. The entry replaces an earlier entry of the same name. Expiry is the
store dropping an entry later on; no operation of the widgets does that. -/
def setCookie (store : List Cookie) (name : CookieName) (value : CookieValue)
    (ttl : Nat) (type : String) : List Cookie :=
  store.filter (fun c => c.name != name) ++ [⟨name, value, ttl, type⟩]

/-- Modelled from the spec: `getCookie` of `web.utils.cookies` (not in this file),
the read of the persisted flag store: the stored value as a string, the empty
string when nothing is stored under the name. -/
def getCookie (store : List Cookie) (name : String) : String :=
  match store.find? (fun c => c.name == CookieName.str name) with
  | some c => c.value.toStr
  | none => ""

/-! ## Global state shared by the popups of a page -/

/-- A pending `setTimeout`: its handle, the instance whose `_showPopup` the
callback calls, and the delay in milliseconds. -/
structure Timer where
  handle : Nat
  owner : Nat
  delay : Nat
  deriving DecidableEq, Repr

/-- The two requests the widgets send to the Bootstrap modal of a popup:
`.modal("show")` and `.modal("hide")`. -/
inductive ModalReq where
  | showReq
  | hideReq
  deriving DecidableEq, Repr

/-- The global state the `PopupWidget` methods read and write.
`mouseleave` lists, in registration order, the handlers bound on `document`
under `mouseleave.open_popup`, each one by the instance whose `_showPopup` it
calls. `modalReqs` is the log of modal requests, each with the instance that
sent it. `utmsDataset` is what the last `setUtmsHtmlDataset` call left in the
dataset of the page. -/
structure Env where
  cookies : List Cookie
  mouseleave : List Nat
  timers : List Timer
  nextHandle : Nat
  modalReqs : List (Nat × ModalReq)
  utmsDataset : List (String × String)
  deriving DecidableEq, Repr

/-- The `config.device` object of `web.config` (not in this file), as far as the
widgets read it: `size_class`, `SIZES.LG` and `isMobile`. -/
structure Device where
  size_class : Nat
  LG : Nat
  isMobile : Bool
  deriving DecidableEq, Repr

/-! ## The popup element and the fields of a `PopupWidget` -/

/-- One element matched by `.oe_structure > *:not(.s_popup_close)`:
its `dataset.visibilitySelectors` (`none` for undefined), what the DOM answers
on `el.matches`, and whether its class list contains
`o_snippet_mobile_invisible`, `o_snippet_desktop_invisible`. The answer of the
DOM is given by two lists: `matchedSelectors`, the selectors the element
matches, and `invalidSelectors`, the strings that are no valid selector, on
which the call throws a `SyntaxError`; a block that stands for an element of a
page lists there every such string its `dataset.visibilitySelectors` can be. -/
structure Block where
  visibilitySelectors : Option String
  matchedSelectors : List String
  invalidSelectors : List String
  mobileInvisible : Bool
  desktopInvisible : Bool
  deriving DecidableEq, Repr

/-- The DOM call `el.matches(sel)`: `some true` or `some false` when the call
answers, `none` when it throws a `SyntaxError`, which it does on the empty
string and on every string that is no valid selector. -/
def Block.matches (el : Block) (sel : String) : Option Bool :=
  if sel == "" || el.invalidSelectors.contains sel then none
  else some (el.matchedSelectors.contains sel)

/-- One `.media_iframe_video` element: `dataset.oeExpression`, `dataset.src`
(`none` for undefined) and the `src` of each `iframe` below it, in document
order. -/
structure Media where
  oeExpression : Option String
  src : Option String
  iframes : List String
  deriving DecidableEq, Repr

/-- A `PopupWidget` instance: `uid` is the identity of the object (`this`),
`id` the id of its element (the element carries an id attribute, so that
`this.$el.attr("id")` and `this.el.id` are the same string), `display`,
`showAfter` and `consentsDuration` the data attributes of its `.modal`, `blocks`
and `media` the parts of the element the widget reads or writes, and
`_popupAlreadyShown`, `timeout`, `cookieValue` its fields (`_popupAlreadyShown`
is undefined before `start`, which is falsy: `false`; `timeout` is undefined
until a timer is set: `none`). -/
structure Popup where
  uid : Nat
  id : String
  display : String
  showAfter : Nat
  consentsDuration : Nat
  blocks : List Block
  media : List Media
  _popupAlreadyShown : Bool
  timeout : Option Nat
  cookieValue : CookieValue
  deriving DecidableEq, Repr

namespace PopupWidget

/-- The callback of `every` in `start` (lines 92-98):
`(visibilitySelectors && el.matches(visibilitySelectors)) || deviceInvisible`;
`none` when `el.matches` throws. The call `el.matches` is made only when
`visibilitySelectors` is truthy. -/
def hiddenBlock (isMobile : Bool) (el : Block) : Option Bool :=
  let deviceInvisible := if isMobile then el.mobileInvisible else el.desktopInvisible
  match el.visibilitySelectors with
  | some visibilitySelectors =>
    if truthy visibilitySelectors then
      match el.matches visibilitySelectors with
      | some m => some (m || deviceInvisible)
      | none => none
    else some deviceInvisible
  | none => some deviceInvisible

/-- The array method `every`: the callback runs on the elements in order until
it answers false; an exception of the callback ends the loop (`none`). -/
def every {α : Type} (f : α → Option Bool) : List α → Option Bool
  | [] => some true
  | a :: rest =>
    match f a with
    | none => none
    | some false => some false
    | some true => every f rest

/-- The constant `emptyPopup` of `start` (lines 89-98); `none` when computing it
throws. -/
def emptyPopup (dev : Device) (w : Popup) : Option Bool :=
  let isMobile := decide (dev.size_class < dev.LG)
  every (hiddenBlock isMobile) w.blocks

/-- `_bindPopup` (lines 121-139). -/
def _bindPopup (dev : Device) (w : Popup) (env : Env) : Popup × Env :=
  let display := w.display
  let delay := w.showAfter
  let coerced := dev.isMobile && display == "mouseExit"
  let display := if coerced then "afterDelay" else display
  let delay := if coerced then 5000 else delay
  if display == "afterDelay" then
    ({ w with timeout := some env.nextHandle },
     { env with
        timers := env.timers ++ [⟨env.nextHandle, w.uid, delay⟩],
        nextHandle := env.nextHandle + 1 })
  else
    (w, { env with mouseleave := env.mouseleave ++ [w.uid] })

/-- `_canShowPopup` (lines 143-145). -/
def _canShowPopup (_w : Popup) : Bool := true

/-- `_hidePopup` (lines 149-151). -/
def _hidePopup (w : Popup) (env : Env) : Popup × Env :=
  (w, { env with modalReqs := env.modalReqs ++ [(w.uid, ModalReq.hideReq)] })

/-- `_showPopup` (lines 155-160). -/
def _showPopup (w : Popup) (env : Env) : Popup × Env :=
  if w._popupAlreadyShown || !_canShowPopup w then
    (w, env)
  else
    (w, { env with modalReqs := env.modalReqs ++ [(w.uid, ModalReq.showReq)] })

/-- `_onCloseClick` (lines 169-171). -/
def _onCloseClick (w : Popup) (env : Env) : Popup × Env := _hidePopup w env

/-- `_onHideModal` (lines 175-183). -/
def _onHideModal (w : Popup) (env : Env) : Popup × Env :=
  let nbDays := w.consentsDuration
  let cookies := setCookie env.cookies (CookieName.str w.id) w.cookieValue
    (nbDays * 24 * 60 * 60) "required"
  ({ w with
      _popupAlreadyShown := true,
      media := w.media.map fun m => { m with iframes := m.iframes.map fun _ => "" } },
   { env with cookies := cookies })

/-- The value `media.dataset.oeExpression || media.dataset.src` of line 190,
converted to the string an `iframe.src` assignment stores. -/
def mediaSrc (m : Media) : String :=
  let v := match m.oeExpression with
    | some e => if truthy e then some e else m.src
    | none => m.src
  match v with
  | some s => s
  | none => "undefined"

/-- The `forEach` of `_onShowModal` (lines 188-191): the first `iframe` of each
media element gets the source; a media element without `iframe` makes
`iframe.src` throw, which ends the loop. -/
def showMedia : List Media → List Media
  | [] => []
  | m :: rest =>
    match m.iframes with
    | [] => m :: rest
    | _ :: others => { m with iframes := mediaSrc m :: others } :: showMedia rest

/-- `_onShowModal` (lines 187-192). -/
def _onShowModal (w : Popup) (env : Env) : Popup × Env :=
  ({ w with media := showMedia w.media }, env)

/-- `start` (lines 83-103). The flag is written first; when computing
`emptyPopup` throws, the call ends there, before the test of line 99. -/
def start (dev : Device) (w : Popup) (env : Env) : Outcome (Popup × Env) :=
  let w := { w with _popupAlreadyShown := truthy (getCookie env.cookies w.id) }
  match emptyPopup dev w with
  | none => Outcome.threw (w, env)
  | some emptyPopup =>
    if !w._popupAlreadyShown && !emptyPopup then
      Outcome.returned (_bindPopup dev w env)
    else
      Outcome.returned (w, env)

/-- `destroy` (lines 107-112): every handler under `mouseleave.open_popup` is
taken off `document`, the modal is asked to hide, the timer `this.timeout` is
cleared. -/
def destroy (w : Popup) (env : Env) : Popup × Env :=
  let env := { env with mouseleave := [] }
  let env := { env with modalReqs := env.modalReqs ++ [(w.uid, ModalReq.hideReq)] }
  let env := match w.timeout with
    | some h => { env with timers := env.timers.filter fun t => t.handle != h }
    | none => env
  (w, env)

/-- The events a `PopupWidget` instance reacts to: the widget life cycle
(`start`, `destroy`), the callback of the pending timer with handle `h`, a
`mouseleave` event on `document`, a click on `.js_close_popup`, and the
`hide.bs.modal` and `show.bs.modal` events of its modal. -/
inductive Event where
  | start
  | timerFire (h : Nat)
  | mouseLeave
  | closeClick
  | hideModal
  | showModal
  | destroy
  deriving DecidableEq, Repr

/-- A `mouseleave` on `document`: every handler bound under
`mouseleave.open_popup` by the instance runs, each one calling `_showPopup`
(line 137). -/
def onMouseLeave (w : Popup) (env : Env) : Popup × Env :=
  (env.mouseleave.filter (fun u => u == w.uid)).foldl
    (fun s _ => _showPopup s.1 s.2) (w, env)

/-- The pending timer with handle `h` fires: it leaves the pending timers and,
when it is a timer of the instance, its callback calls `_showPopup` (line 135).
Nothing happens when no such timer is pending. -/
def onTimerFire (h : Nat) (w : Popup) (env : Env) : Popup × Env :=
  match env.timers.find? (fun t => t.handle == h) with
  | none => (w, env)
  | some t =>
    let env := { env with timers := env.timers.filter fun t => t.handle != h }
    if t.owner == w.uid then _showPopup w env else (w, env)

/-- One step of a `PopupWidget` instance: the handler the `events` map
(lines 73-77) or the armed trigger runs on the event. A `start` that throws
leaves its state behind like one that returns. -/
def step (dev : Device) (s : Popup × Env) : Event → Popup × Env
  | .start => (start dev s.1 s.2).state
  | .timerFire h => onTimerFire h s.1 s.2
  | .mouseLeave => onMouseLeave s.1 s.2
  | .closeClick => _onCloseClick s.1 s.2
  | .hideModal => _onHideModal s.1 s.2
  | .showModal => _onShowModal s.1 s.2
  | .destroy => destroy s.1 s.2

/-- The state after a sequence of events. -/
def run (dev : Device) (s : Popup × Env) (evs : List Event) : Popup × Env :=
  evs.foldl (step dev) s

/-- The number of `.modal("show")` requests the instance `uid` has sent. -/
def showCount (uid : Nat) (env : Env) : Nat :=
  (env.modalReqs.filter fun r => r == (uid, ModalReq.showReq)).length

/-- A trigger of a popup: a timer with its delay, or a `mouseleave` handler. -/
inductive Trigger where
  | timer (delay : Nat)
  | mouseLeave
  deriving DecidableEq, Repr

/-- The pending timers of the instance `uid`. -/
def timersOf (uid : Nat) (env : Env) : List Timer :=
  env.timers.filter fun t => t.owner == uid

/-- The `mouseleave.open_popup` handlers of the instance `uid`. -/
def listenersOf (uid : Nat) (env : Env) : List Nat :=
  env.mouseleave.filter fun u => u == uid

/-- The triggers the instance `uid` has armed: its pending timers, then its
`mouseleave` handlers. -/
def triggersOf (uid : Nat) (env : Env) : List Trigger :=
  (timersOf uid env).map (fun t => Trigger.timer t.delay) ++
    (listenersOf uid env).map (fun _ => Trigger.mouseLeave)

/-- A new instance, before `start`: `_popupAlreadyShown` and `timeout` are
undefined, `cookieValue` is the `true` of the prototype (line 78). -/
def fresh (w : Popup) : Popup :=
  { w with _popupAlreadyShown := false, timeout := none, cookieValue := CookieValue.bool true }

/-- A page on which no popup has armed anything yet: only the cookie store (and
the next timer handle) is arbitrary. -/
def freshEnv (cookies : List Cookie) (nextHandle : Nat) : Env :=
  { cookies := cookies, mouseleave := [], timers := [], nextHandle := nextHandle,
    modalReqs := [], utmsDataset := [] }

end PopupWidget

/-! ## `cookies_bar` -/

namespace cookies_bar

/-- The own properties of the object `trackingFields` (lines 326-330). -/
def trackingFields : List (String × String) :=
  [("utm_campaign", "odoo_utm_campaign"),
   ("utm_source", "odoo_utm_source"),
   ("utm_medium", "odoo_utm_medium")]

/-- The property names every object literal inherits from `Object.prototype`. -/
def objectPrototypeMembers : List String :=
  ["constructor", "__defineGetter__", "__defineSetter__", "hasOwnProperty",
   "__lookupGetter__", "__lookupSetter__", "isPrototypeOf", "propertyIsEnumerable",
   "toString", "valueOf", "__proto__", "toLocaleString"]

/-- The test `key in trackingFields` (line 332): the operator `in` holds for the
own properties and for the inherited ones. -/
def inTrackingFields (key : String) : Bool :=
  (trackingFields.lookup key).isSome || objectPrototypeMembers.contains key

/-- The read `trackingFields[key]` (line 334). -/
def trackingFieldsGet (key : String) : CookieName :=
  match trackingFields.lookup key with
  | some name => CookieName.str name
  | none =>
    if objectPrototypeMembers.contains key then CookieName.inherited key
    else CookieName.undefined

/-- The loop over the query parameters (lines 331-336). -/
def trackParams (store : List Cookie) : List (String × String) → List Cookie
  | [] => store
  | (key, value) :: rest =>
    if inTrackingFields key then
      trackParams
        (setCookie store (trackingFieldsGet key) (CookieValue.str value)
          (31 * 24 * 60 * 60) "required") rest
    else
      trackParams store rest

/-- Modelled from the spec: `setUtmsHtmlDataset` of
`@website/js/content/inject_dom` (not in this file), which applies the
persisted attribution values into the tracking dataset of the page: each of the
three attribution cookies that holds a value is copied there. -/
def setUtmsHtmlDataset (env : Env) : Env :=
  { env with
    utmsDataset :=
      (["odoo_utm_campaign", "odoo_utm_source", "odoo_utm_medium"].filter
        fun n => truthy (getCookie env.cookies n)).map
        fun n => (n, getCookie env.cookies n) }

/-- The override `_onHideModal` (lines 323-338); `search` is the list of
key/value pairs `new URLSearchParams(window.location.search)` iterates over. -/
def _onHideModal (search : List (String × String)) (w : Popup) (env : Env) : Popup × Env :=
  let r := PopupWidget._onHideModal w env
  let env := { r.2 with cookies := trackParams r.2.cookies search }
  (r.1, setUtmsHtmlDataset env)

/-- The structured consent value of line 317, `optional` being the string
conversion of the comparison. -/
def consentValue (optional : Bool) : String :=
  "\x7b\"required\": true, \"optional\": " ++ (if optional then "true" else "false") ++ "\x7d"

/-- `_onAcceptClick` (lines 316-319); `targetId` is `ev.target.id`. -/
def _onAcceptClick (search : List (String × String)) (targetId : String)
    (w : Popup) (env : Env) : Popup × Env :=
  let w := { w with
    cookieValue := CookieValue.str (consentValue (targetId == "cookies-consent-all")) }
  _onHideModal search w env

/-- The id of the element the widget is bound to (selector
`#website_cookies_bar`, line 303). -/
def barId : String := "website_cookies_bar"

end cookies_bar

/-! ## `SharedPopupWidget` -/

/-- The `.s_popup` wrapper as `SharedPopupWidget` sees it: its class list,
`editableMode`, whether `querySelector(".s_popup_no_backdrop")` finds an
element, and the number of `scroll` events dispatched on the scrolling
element so far. -/
structure SharedPopup where
  classList : List String
  editableMode : Bool
  hasNoBackdrop : Bool
  scrollEvents : Nat
  deriving DecidableEq, Repr

/-- The DOM call `classList.add(token)`. -/
def classListAdd (classList : List String) (token : String) : List String :=
  if classList.contains token then classList else classList ++ [token]

/-- The DOM call `classList.remove(token)`. -/
def classListRemove (classList : List String) (token : String) : List String :=
  classList.filter fun c => c != token

namespace SharedPopupWidget

/-- `destroy` (lines 32-41). -/
def destroy (w : SharedPopup) : SharedPopup :=
  if !w.editableMode then
    { w with classList := classListAdd w.classList "d-none" }
  else
    w

/-- `_onModalShow` (lines 50-52). -/
def _onModalShow (w : SharedPopup) : SharedPopup :=
  { w with classList := classListRemove w.classList "d-none" }

/-- `_onModalHidden` (lines 56-66). -/
def _onModalHidden (w : SharedPopup) : SharedPopup :=
  let w := if w.hasNoBackdrop then { w with scrollEvents := w.scrollEvents + 1 } else w
  { w with classList := classListAdd w.classList "d-none" }

end SharedPopupWidget

/-! ## `noBackdropPopupWidget` -/

/-- The two private operations of the Bootstrap modal instance that
`_updateScrollbar` calls. -/
inductive ModalCall where
  | adjustDialog
  | resetAdjustments
  deriving DecidableEq, Repr

/-- The global state `noBackdropPopupWidget` reads and writes: the functions
registered on `window` for `resize`, the `ResizeObserver`s that observe an
element, the identity the next created function or observer gets, the number
of synthetic `resize` events dispatched, and the calls made on the modal
instance. -/
structure Win where
  resizeListeners : List Nat
  observers : List Nat
  nextId : Nat
  resizeEvents : Nat
  modalCalls : List ModalCall
  deriving DecidableEq, Repr

/-- A `noBackdropPopupWidget` instance: `editableMode` and the two fields
`throttledUpdateScrollbar` and `resizeObserver` (`none` for undefined), each
holding the identity of a function or observer. -/
structure NoBackdrop where
  editableMode : Bool
  throttledUpdateScrollbar : Option Nat
  resizeObserver : Option Nat
  deriving DecidableEq, Repr

namespace noBackdropPopupWidget

/-- `_updateScrollbar` (lines 236-254); `isOverflowing` is the result of
`dom.hasScrollableContent(modalContent)`. -/
def _updateScrollbar (isOverflowing : Bool) (win : Win) : Win :=
  if isOverflowing then
    { win with modalCalls := win.modalCalls ++ [ModalCall.adjustDialog] }
  else
    { win with modalCalls := win.modalCalls ++ [ModalCall.resetAdjustments] }

/-- `_addModalNoBackdropEvents` (lines 258-266). `addEventListener` ignores an
undefined callback and a callback that is registered already; the observer is
a new object each time and replaces the one the field held. -/
def _addModalNoBackdropEvents (w : NoBackdrop) (win : Win) : NoBackdrop × Win :=
  let win := match w.throttledUpdateScrollbar with
    | some f =>
      if win.resizeListeners.contains f then win
      else { win with resizeListeners := win.resizeListeners ++ [f] }
    | none => win
  let o := win.nextId
  let win := { win with nextId := win.nextId + 1 }
  let w := { w with resizeObserver := some o }
  (w, { win with observers := win.observers ++ [o] })

/-- `_removeModalNoBackdropEvents` (lines 270-276). -/
def _removeModalNoBackdropEvents (w : NoBackdrop) (win : Win) : NoBackdrop × Win :=
  let win := match w.throttledUpdateScrollbar with
    | some f => { win with resizeListeners := win.resizeListeners.filter fun g => g != f }
    | none => win
  match w.resizeObserver with
  | some o =>
    ({ w with resizeObserver := none },
     { win with observers := win.observers.filter fun x => x != o })
  | none => (w, win)

/-- `start` (lines 208-217); `hasShow` is `this.el.classList.contains("show")`. -/
def start (hasShow isOverflowing : Bool) (w : NoBackdrop) (win : Win) : NoBackdrop × Win :=
  let w := { w with throttledUpdateScrollbar := some win.nextId }
  let win := { win with nextId := win.nextId + 1 }
  if w.editableMode && hasShow then
    let win := _updateScrollbar isOverflowing win
    _addModalNoBackdropEvents w win
  else
    (w, win)

/-- `destroy` (lines 221-227). -/
def destroy (w : NoBackdrop) (win : Win) : NoBackdrop × Win :=
  let r := _removeModalNoBackdropEvents w win
  (r.1, { r.2 with resizeEvents := r.2.resizeEvents + 1 })

/-- `_onModalNoBackdropShown` (lines 285-288). -/
def _onModalNoBackdropShown (isOverflowing : Bool) (w : NoBackdrop) (win : Win) :
    NoBackdrop × Win :=
  let win := _updateScrollbar isOverflowing win
  _addModalNoBackdropEvents w win

/-- `_onModalNoBackdropHide` (lines 292-294). -/
def _onModalNoBackdropHide (w : NoBackdrop) (win : Win) : NoBackdrop × Win :=
  _removeModalNoBackdropEvents w win

/-- The events of the widget: its life cycle and the `shown.bs.modal` and
`hide.bs.modal` events of lines 201-202, with what the handler reads from the
DOM at that moment. -/
inductive Event where
  | start (hasShow isOverflowing : Bool)
  | shown (isOverflowing : Bool)
  | hide
  | destroy
  deriving DecidableEq, Repr

/-- One step of the widget. -/
def step (s : NoBackdrop × Win) : Event → NoBackdrop × Win
  | .start hasShow isOverflowing => start hasShow isOverflowing s.1 s.2
  | .shown isOverflowing => _onModalNoBackdropShown isOverflowing s.1 s.2
  | .hide => _onModalNoBackdropHide s.1 s.2
  | .destroy => destroy s.1 s.2

/-- The state after a sequence of events. -/
def run (s : NoBackdrop × Win) (evs : List Event) : NoBackdrop × Win :=
  evs.foldl step s

/-- A new instance on a page where nothing is registered yet. -/
def init (editableMode : Bool) : NoBackdrop × Win :=
  ({ editableMode := editableMode, throttledUpdateScrollbar := none, resizeObserver := none },
   { resizeListeners := [], observers := [], nextId := 0, resizeEvents := 0, modalCalls := [] })

end noBackdropPopupWidget

/-! ## Two popups on one page -/

/-- Two `PopupWidget` instances `a` and `b` and the global state they share. -/
structure Page where
  a : Popup
  b : Popup
  env : Env
  deriving DecidableEq, Repr

/-- The operations of one instance: the five the frame property names and the
remaining handlers. -/
inductive Op where
  | start
  | bindPopup
  | showPopup
  | onHideModal
  | destroy
  | onCloseClick
  | onShowModal
  deriving DecidableEq, Repr

/-- The method an operation stands for. -/
def Op.apply (dev : Device) : Op → Popup → Env → Popup × Env
  | .start => fun w env => (PopupWidget.start dev w env).state
  | .bindPopup => PopupWidget._bindPopup dev
  | .showPopup => PopupWidget._showPopup
  | .onHideModal => PopupWidget._onHideModal
  | .destroy => PopupWidget.destroy
  | .onCloseClick => PopupWidget._onCloseClick
  | .onShowModal => PopupWidget._onShowModal

/-- What happens on a page: an operation of `a`, an operation of `b`, a
`mouseleave` on `document`, or the pending timer with handle `h` firing. -/
inductive PageEvent where
  | a (op : Op)
  | b (op : Op)
  | mouseLeave
  | timerFire (h : Nat)
  deriving DecidableEq, Repr

/-- The handler bound by the instance `u` runs: `_showPopup` of that instance. -/
def Page.callShowPopup (p : Page) (u : Nat) : Page :=
  if u == p.a.uid then
    let r := PopupWidget._showPopup p.a p.env
    { p with a := r.1, env := r.2 }
  else if u == p.b.uid then
    let r := PopupWidget._showPopup p.b p.env
    { p with b := r.1, env := r.2 }
  else p

/-- One step of the page. On `mouseleave` the handlers bound under
`mouseleave.open_popup` run in registration order; a firing timer leaves the
pending timers and runs its callback. -/
def Page.step (dev : Device) (p : Page) : PageEvent → Page
  | .a op =>
    let r := op.apply dev p.a p.env
    { p with a := r.1, env := r.2 }
  | .b op =>
    let r := op.apply dev p.b p.env
    { p with b := r.1, env := r.2 }
  | .mouseLeave => p.env.mouseleave.foldl Page.callShowPopup p
  | .timerFire h =>
    match p.env.timers.find? (fun t => t.handle == h) with
    | none => p
    | some t =>
      Page.callShowPopup
        { p with env := { p.env with timers := p.env.timers.filter fun t => t.handle != h } }
        t.owner

/-- The page after a sequence of events. -/
def Page.run (dev : Device) (p : Page) (evs : List PageEvent) : Page :=
  evs.foldl (Page.step dev) p

/-- A page right after loading: two new instances and nothing armed. -/
def Page.init (a b : Popup) (cookies : List Cookie) (nextHandle : Nat) : Page :=
  { a := PopupWidget.fresh a, b := PopupWidget.fresh b,
    env := PopupWidget.freshEnv cookies nextHandle }

/-! ## Invariants and reference functions used by the theorems -/

/-- The invariant behind the acknowledgement flag: the instance still has the
`cookieValue` of the prototype, and a set flag has a truthy cookie under the id
of the popup behind it. -/
def AckInv (s : Popup × Env) : Prop :=
  s.1.cookieValue = CookieValue.bool true ∧
  (s.1._popupAlreadyShown = true → truthy (getCookie s.2.cookies s.1.id) = true)

/-- The element is invisible on the current class of devices: it carries
`o_snippet_mobile_invisible` when `size_class < LG`, `o_snippet_desktop_invisible`
otherwise. -/
def Block.deviceInvisible (dev : Device) (el : Block) : Prop :=
  if dev.size_class < dev.LG then el.mobileInvisible = true else el.desktopInvisible = true

/-- The element has a `data-visibility-selectors` attribute and matches it. -/
def Block.matchesOwnSelectors (el : Block) : Prop :=
  ∃ sel, el.visibilitySelectors = some sel ∧ el.matches sel = some true

/-- Evaluating the callback of `every` on the element throws: its
`data-visibility-selectors` value is truthy and `el.matches` throws on it. -/
def Block.selectorThrows (el : Block) : Prop :=
  ∃ sel, el.visibilitySelectors = some sel ∧ truthy sel = true ∧ el.matches sel = none

/-- What arming a trigger for the instance `uid` means: a timer joins the
pending timers under the next handle, a `mouseleave` handler joins the handlers
bound on `document`; nothing else changes. -/
def arm (uid : Nat) (env : Env) : PopupWidget.Trigger → Env
  | .timer delay =>
    { env with
      timers := env.timers ++ [⟨env.nextHandle, uid, delay⟩],
      nextHandle := env.nextHandle + 1 }
  | .mouseLeave => { env with mouseleave := env.mouseleave ++ [uid] }

/-- The two display modes of the data model. -/
inductive DisplayMode where
  | afterDelay
  | mouseExit
  deriving DecidableEq, Repr

/-- The value of `data-display` for a display mode. -/
def DisplayMode.attr : DisplayMode → String
  | .afterDelay => "afterDelay"
  | .mouseExit => "mouseExit"

/-- The reference function of the trigger, as the specification words it:
`afterDelay` is a timer of `showAfter` ms, `mouseExit` is a timer of 5000 ms on
a mobile device and a `mouseleave` listener elsewhere. -/
def referenceTrigger : DisplayMode → Nat → Bool → PopupWidget.Trigger
  | .afterDelay, showAfter, _ => PopupWidget.Trigger.timer showAfter
  | .mouseExit, _, true => PopupWidget.Trigger.timer 5000
  | .mouseExit, _, false => PopupWidget.Trigger.mouseLeave

/-! ## Sample inputs -/

/-- A desktop viewport. -/
def exDesktop : Device := { size_class := 5, LG := 4, isMobile := false }

/-- A content block that is visible everywhere. -/
def exVisibleBlock : Block :=
  { visibilitySelectors := none, matchedSelectors := [], invalidSelectors := [],
    mobileInvisible := false, desktopInvisible := false }

/-- A content block hidden on desktop. -/
def exDesktopHiddenBlock : Block :=
  { visibilitySelectors := none, matchedSelectors := [], invalidSelectors := [],
    mobileInvisible := false, desktopInvisible := true }

/-- A popup shown after 2000 ms, with one video. -/
def exDelayPopup : Popup :=
  { uid := 1, id := "sPopup1", display := "afterDelay", showAfter := 2000,
    consentsDuration := 7, blocks := [exVisibleBlock],
    media := [{ oeExpression := none, src := some "//video", iframes := ["//video"] }],
    _popupAlreadyShown := false, timeout := none, cookieValue := CookieValue.bool true }

/-- A popup shown when the pointer leaves the page. -/
def exMouseExitPopup : Popup :=
  { uid := 2, id := "sPopup2", display := "mouseExit", showAfter := 0,
    consentsDuration := 7, blocks := [exVisibleBlock], media := [],
    _popupAlreadyShown := false, timeout := none, cookieValue := CookieValue.bool true }

/-- A content block, visible everywhere, whose `data-visibility-selectors` is
the string `[[[`, which is no valid selector. -/
def exBadSelectorBlock : Block :=
  { visibilitySelectors := some "[[[", matchedSelectors := [], invalidSelectors := ["[[["],
    mobileInvisible := false, desktopInvisible := false }

/-- A popup shown after 2000 ms whose only content block has the invalid
selector. -/
def exBadSelectorPopup : Popup :=
  { uid := 5, id := "sPopup5", display := "afterDelay", showAfter := 2000,
    consentsDuration := 7, blocks := [exBadSelectorBlock], media := [],
    _popupAlreadyShown := false, timeout := none, cookieValue := CookieValue.bool true }

/-- A popup whose only content block is hidden on desktop. -/
def exHiddenPopup : Popup :=
  { exDelayPopup with uid := 3, id := "sPopup3", blocks := [exDesktopHiddenBlock] }

/-- The cookies bar. -/
def exCookiesBar : Popup :=
  { uid := 4, id := cookies_bar.barId, display := "afterDelay", showAfter := 500,
    consentsDuration := 365, blocks := [exVisibleBlock], media := [],
    _popupAlreadyShown := false, timeout := none, cookieValue := CookieValue.bool true }

/-- The state of a popup in `afterDelay` mode that has no `mouseleave` handler and
has sent no `show` request. -/
def DelayQuiet (u : Nat) (s : Popup × Env) : Prop :=
  s.1.uid = u ∧ s.1.display = "afterDelay" ∧ PopupWidget.listenersOf u s.2 = [] ∧
    PopupWidget.showCount u s.2 = 0

/-- The state of a popup in `mouseExit` mode that has no pending timer and has
sent no `show` request. -/
def ExitQuiet (u : Nat) (s : Popup × Env) : Prop :=
  s.1.uid = u ∧ s.1.display = "mouseExit" ∧ PopupWidget.timersOf u s.2 = [] ∧
    PopupWidget.showCount u s.2 = 0

/-- The state of a popup in `mouseExit` mode whose flag is unset, whose
`mouseleave` handler is bound once and which has no pending timer. -/
def ExitArmed (u : Nat) (s : Popup × Env) : Prop :=
  s.1.uid = u ∧ s.1._popupAlreadyShown = false ∧ PopupWidget.listenersOf u s.2 = [u] ∧
    PopupWidget.timersOf u s.2 = []

/-- The events that can come between the start of a widget and the hide event
of its modal: pointer-leaves, clicks on the close button, `show.bs.modal`
events and firing timers. -/
def PopupWidget.Event.isInterlude : PopupWidget.Event → Bool
  | .mouseLeave => true
  | .closeClick => true
  | .showModal => true
  | .timerFire _ => true
  | .start => false
  | .hideModal => false
  | .destroy => false

/-- What an operation of one instance can do to the timers: nothing, add one
timer of the instance under the next handle (which the instance keeps), or
clear the timer whose handle the instance keeps. -/
inductive TimerEffect (w : Popup) (env : Env) (r : Popup × Env) : Prop where
  | same (ht : r.2.timers = env.timers) (hh : r.1.timeout = w.timeout)
      (hn : r.2.nextHandle = env.nextHandle)
  | added (d : Nat) (ht : r.2.timers = env.timers ++ [⟨env.nextHandle, w.uid, d⟩])
      (hh : r.1.timeout = some env.nextHandle) (hn : r.2.nextHandle = env.nextHandle + 1)
  | cleared (h : Nat) (hw : w.timeout = some h)
      (ht : r.2.timers = env.timers.filter fun t => t.handle != h)
      (hh : r.1.timeout = w.timeout) (hn : r.2.nextHandle = env.nextHandle)

/-- The handles the two instances keep identify their own timers: the instances
are distinct, every pending timer has a handle below the next one, and a handle
an instance keeps is below the next one and belongs to no timer of another
owner. -/
def Page.HandlesOk (p : Page) : Prop :=
  p.a.uid ≠ p.b.uid ∧
  (∀ t ∈ p.env.timers, t.handle < p.env.nextHandle) ∧
  (∀ h, p.a.timeout = some h →
    h < p.env.nextHandle ∧ ∀ t ∈ p.env.timers, t.handle = h → t.owner = p.a.uid) ∧
  (∀ h, p.b.timeout = some h →
    h < p.env.nextHandle ∧ ∀ t ∈ p.env.timers, t.handle = h → t.owner = p.b.uid)


/-! # Theorems -/

/-! ## The cookie store -/

theorem getCookie_setCookie (store : List Cookie) (k : String) (v : CookieValue)
    (ttl : Nat) (ty : String) :
    getCookie (setCookie store (CookieName.str k) v ttl ty) k = v.toStr := by
  unfold getCookie setCookie
  rw [List.find?_append]
  have h : (List.filter (fun c => c.name != CookieName.str k) store).find?
      (fun c => c.name == CookieName.str k) = none := by
    rw [List.find?_eq_none]
    intro c hc
    simp only [List.mem_filter] at hc
    simpa using hc.2
  rw [h]
  simp

/-! ## Frame lemmas of the `PopupWidget` methods -/

namespace PopupWidget

theorem showPopup_fst (w : Popup) (env : Env) : (_showPopup w env).1 = w := by
  unfold _showPopup; split <;> rfl

theorem showPopup_cookies (w : Popup) (env : Env) :
    (_showPopup w env).2.cookies = env.cookies := by
  unfold _showPopup; split <;> rfl

theorem showPopup_of_shown (w : Popup) (env : Env) (h : w._popupAlreadyShown = true) :
    _showPopup w env = (w, env) := by
  unfold _showPopup; simp [h]

theorem showPopup_of_not_shown (w : Popup) (env : Env) (h : w._popupAlreadyShown = false) :
    _showPopup w env =
      (w, { env with modalReqs := env.modalReqs ++ [(w.uid, ModalReq.showReq)] }) := by
  unfold _showPopup _canShowPopup; simp [h]

theorem foldl_showPopup_fst (l : List Nat) (w : Popup) (env : Env) :
    (l.foldl (fun s _ => _showPopup s.1 s.2) (w, env)).1 = w := by
  induction l generalizing env with
  | nil => rfl
  | cons x xs ih =>
    simp only [List.foldl_cons]
    have : _showPopup w env = (w, (_showPopup w env).2) :=
      Prod.ext (showPopup_fst w env) rfl
    rw [this]; exact ih _

theorem foldl_showPopup_of_shown (l : List Nat) (w : Popup) (env : Env)
    (h : w._popupAlreadyShown = true) :
    l.foldl (fun s _ => _showPopup s.1 s.2) (w, env) = (w, env) := by
  induction l with
  | nil => rfl
  | cons x xs ih => simp only [List.foldl_cons]; rw [showPopup_of_shown w env h]; exact ih

theorem foldl_showPopup_cookies (l : List Nat) (w : Popup) (env : Env) :
    (l.foldl (fun s _ => _showPopup s.1 s.2) (w, env)).2.cookies = env.cookies := by
  induction l generalizing env with
  | nil => rfl
  | cons x xs ih =>
    simp only [List.foldl_cons]
    have : _showPopup w env = (w, (_showPopup w env).2) :=
      Prod.ext (showPopup_fst w env) rfl
    rw [this, ih, showPopup_cookies]

theorem bindPopup_frame (dev : Device) (w : Popup) (env : Env) :
    (_bindPopup dev w env).1._popupAlreadyShown = w._popupAlreadyShown ∧
    (_bindPopup dev w env).1.id = w.id ∧
    (_bindPopup dev w env).1.cookieValue = w.cookieValue ∧
    (_bindPopup dev w env).1.uid = w.uid ∧
    (_bindPopup dev w env).2.cookies = env.cookies ∧
    (_bindPopup dev w env).2.modalReqs = env.modalReqs := by
  unfold _bindPopup
  simp only []
  split_ifs <;> simp

/-! ## The ways `start` ends -/

/-- After `start`, thrown or returned, the flag is written and either nothing
else has changed or `_bindPopup` has run. -/
theorem start_state (dev : Device) (w : Popup) (env : Env) :
    (start dev w env).state
        = ({ w with _popupAlreadyShown := truthy (getCookie env.cookies w.id) }, env) ∨
    (start dev w env).state
        = _bindPopup dev
            { w with _popupAlreadyShown := truthy (getCookie env.cookies w.id) } env := by
  unfold start
  simp only []
  split
  · exact Or.inl rfl
  · split
    · exact Or.inr rfl
    · exact Or.inl rfl

theorem start_of_throw (dev : Device) (w : Popup) (env : Env)
    (h : emptyPopup dev w = none) :
    start dev w env = Outcome.threw
      ({ w with _popupAlreadyShown := truthy (getCookie env.cookies w.id) }, env) := by
  have he : ∀ b, emptyPopup dev { w with _popupAlreadyShown := b } = emptyPopup dev w :=
    fun _ => rfl
  unfold start
  simp only [he, h]

theorem start_of_skipped (dev : Device) (w : Popup) (env : Env) (e : Bool)
    (he : emptyPopup dev w = some e)
    (h : truthy (getCookie env.cookies w.id) = true ∨ e = true) :
    start dev w env = Outcome.returned
      ({ w with _popupAlreadyShown := truthy (getCookie env.cookies w.id) }, env) := by
  have hb : ∀ b, emptyPopup dev { w with _popupAlreadyShown := b } = emptyPopup dev w :=
    fun _ => rfl
  unfold start
  simp only [hb, he]
  rcases h with h | h <;> simp [h]

theorem start_of_armed (dev : Device) (w : Popup) (env : Env)
    (hc : truthy (getCookie env.cookies w.id) = false) (hb : emptyPopup dev w = some false) :
    start dev w env
      = Outcome.returned (_bindPopup dev { w with _popupAlreadyShown := false } env) := by
  have he : ∀ b, emptyPopup dev { w with _popupAlreadyShown := b } = emptyPopup dev w :=
    fun _ => rfl
  unfold start
  simp only [he, hb]
  simp [hc]

/-- Unless the popup is neither acknowledged nor empty, `start` leaves the global
state as it is, also when it throws. -/
theorem start_state_of_not_armed (dev : Device) (w : Popup) (env : Env)
    (h : truthy (getCookie env.cookies w.id) = true ∨ emptyPopup dev w ≠ some false) :
    (start dev w env).state
      = ({ w with _popupAlreadyShown := truthy (getCookie env.cookies w.id) }, env) := by
  cases he : emptyPopup dev w with
  | none => rw [start_of_throw dev w env he]; rfl
  | some e =>
    have : truthy (getCookie env.cookies w.id) = true ∨ e = true := by
      rcases h with h | h
      · exact Or.inl h
      · right
        cases e
        · exact absurd he h
        · rfl
    rw [start_of_skipped dev w env e he this]; rfl

/-! ## The acknowledgement invariant -/

theorem step_ackInv (dev : Device) (s : Popup × Env) (e : Event) (h : AckInv s) :
    AckInv (step dev s e) := by
  obtain ⟨w, env⟩ := s
  obtain ⟨hc, hf⟩ := h
  cases e with
  | start =>
    show AckInv (start dev w env).state
    rcases start_state dev w env with h | h <;> rw [h]
    · exact ⟨hc, fun h => h⟩
    · obtain ⟨h1, h2, h3, _, h5, _⟩ := bindPopup_frame dev
        { w with _popupAlreadyShown := truthy (getCookie env.cookies w.id) } env
      refine ⟨by rw [h3]; exact hc, ?_⟩
      rw [h1, h2, h5]
      intro h; exact h
  | timerFire h =>
    unfold step onTimerFire
    simp only []
    split
    · exact ⟨hc, hf⟩
    · split
      · refine ⟨by rw [showPopup_fst]; exact hc, ?_⟩
        rw [showPopup_fst, showPopup_cookies]; exact hf
      · exact ⟨hc, hf⟩
  | mouseLeave =>
    unfold step onMouseLeave
    refine ⟨by rw [foldl_showPopup_fst]; exact hc, ?_⟩
    rw [foldl_showPopup_fst, foldl_showPopup_cookies]; exact hf
  | closeClick => exact ⟨hc, hf⟩
  | hideModal =>
    unfold step _onHideModal
    refine ⟨hc, fun _ => ?_⟩
    simp only []
    rw [getCookie_setCookie]
    simp only [] at hc
    rw [hc]; decide
  | showModal => exact ⟨hc, hf⟩
  | destroy =>
    unfold step destroy
    simp only []
    cases w.timeout <;> exact ⟨hc, hf⟩

theorem run_ackInv (dev : Device) (evs : List Event) (s : Popup × Env) (h : AckInv s) :
    AckInv (run dev s evs) := by
  induction evs generalizing s with
  | nil => exact h
  | cons e es ih => exact ih _ (step_ackInv dev s e h)

theorem fresh_ackInv (w : Popup) (env : Env) : AckInv (fresh w, env) :=
  ⟨rfl, fun h => by simp [fresh] at h⟩

/-- With the invariant, no step clears a set flag. -/
theorem step_keeps_flag (dev : Device) (s : Popup × Env) (e : Event) (hi : AckInv s)
    (h : s.1._popupAlreadyShown = true) : (step dev s e).1._popupAlreadyShown = true := by
  obtain ⟨w, env⟩ := s
  cases e with
  | start =>
    have ht := hi.2 h
    simp only [] at ht
    show (start dev w env).state.1._popupAlreadyShown = true
    rcases start_state dev w env with h1 | h1 <;> rw [h1]
    · exact ht
    · rw [(bindPopup_frame dev _ env).1]; exact ht
  | timerFire k =>
    unfold step onTimerFire
    simp only []
    split
    · exact h
    · split
      · rw [showPopup_fst]; exact h
      · exact h
  | mouseLeave => unfold step onMouseLeave; rw [foldl_showPopup_fst]; exact h
  | closeClick => exact h
  | hideModal => rfl
  | showModal => exact h
  | destroy => exact h

/-- With the invariant and the flag set, no step adds a `show` request. -/
theorem step_showCount_of_shown (dev : Device) (s : Popup × Env) (e : Event) (hi : AckInv s)
    (h : s.1._popupAlreadyShown = true) (u : Nat) :
    showCount u (step dev s e).2 = showCount u s.2 := by
  obtain ⟨w, env⟩ := s
  simp only [] at h
  cases e with
  | start =>
    show showCount u (start dev w env).state.2 = showCount u env
    rcases start_state dev w env with h1 | h1 <;> rw [h1]
    unfold showCount
    rw [(bindPopup_frame dev _ env).2.2.2.2.2]
  | timerFire k =>
    unfold step onTimerFire
    simp only []
    split
    · rfl
    · split
      · rw [showPopup_of_shown _ _ h]; rfl
      · rfl
  | mouseLeave =>
    unfold step onMouseLeave
    rw [foldl_showPopup_of_shown _ _ _ h]
  | closeClick =>
    simp [step, _onCloseClick, _hidePopup, showCount, List.filter_append]
  | hideModal => rfl
  | showModal => rfl
  | destroy =>
    unfold step destroy
    simp only []
    cases w.timeout <;> simp [showCount, List.filter_append]

end PopupWidget

/-! ## Further lemmas -/

open PopupWidget


theorem hiddenBlock_eq_none_iff (m : Bool) (el : Block) :
    hiddenBlock m el = none ↔ el.selectorThrows := by
  unfold hiddenBlock Block.selectorThrows
  cases hv : el.visibilitySelectors with
  | none => simp
  | some sel =>
    cases ht : truthy sel <;> cases hm : el.matches sel <;> simp [ht, hm]

theorem hiddenBlock_eq_false_iff (dev : Device) (el : Block) :
    hiddenBlock (decide (dev.size_class < dev.LG)) el = some false ↔
      (¬ el.selectorThrows ∧ ¬ el.deviceInvisible dev ∧ ¬ el.matchesOwnSelectors) := by
  unfold hiddenBlock Block.selectorThrows Block.deviceInvisible Block.matchesOwnSelectors
  have hempty : ∀ sel, truthy sel = false → el.matches sel = none := by
    intro sel h
    have : sel = "" := by simpa [truthy] using h
    rw [this]; rfl
  cases hv : el.visibilitySelectors with
  | none => by_cases hs : dev.size_class < dev.LG <;> simp [hs]
  | some sel =>
    cases ht : truthy sel
    · have hm := hempty sel ht
      by_cases hs : dev.size_class < dev.LG <;> simp [hs, hm]
    · cases hm : el.matches sel with
      | none => simp [ht, hm]
      | some b =>
        by_cases hs : dev.size_class < dev.LG <;> cases b <;> simp [hs, ht, hm]

theorem every_eq_false {α : Type} (f : α → Option Bool) (l : List α)
    (h : every f l = some false) : ∃ a ∈ l, f a = some false := by
  induction l with
  | nil => simp [every] at h
  | cons a rest ih =>
    unfold every at h
    split at h
    · exact absurd h (by simp)
    · rename_i hfa; exact ⟨a, List.mem_cons_self _ _, hfa⟩
    · obtain ⟨b, hb, hfb⟩ := ih h
      exact ⟨b, List.mem_cons_of_mem _ hb, hfb⟩

theorem every_append_false {α : Type} (f : α → Option Bool) (pre : List α) (a : α)
    (post : List α) (hpre : ∀ b ∈ pre, f b ≠ none) (ha : f a = some false) :
    every f (pre ++ a :: post) = some false := by
  induction pre with
  | nil => simp [every, ha]
  | cons b rest ih =>
    have hrest := ih (fun c hc => hpre c (List.mem_cons_of_mem _ hc))
    have hb := hpre b (List.mem_cons_self _ _)
    show every f (b :: (rest ++ a :: post)) = some false
    unfold every
    cases hfb : f b with
    | none => exact absurd hfb hb
    | some v => cases v <;> simp [hrest]

theorem bindPopup_arms_one (dev : Device) (w : Popup) (env : Env) :
    ∃ t, (_bindPopup dev w env).2 = arm w.uid env t := by
  unfold _bindPopup
  simp only []
  split_ifs
  all_goals first
    | exact ⟨Trigger.timer 5000, rfl⟩
    | exact ⟨Trigger.timer w.showAfter, rfl⟩
    | exact ⟨Trigger.mouseLeave, rfl⟩

theorem bindPopup_static (dev : Device) (w : Popup) (env : Env) :
    (_bindPopup dev w env).1.uid = w.uid ∧
    (_bindPopup dev w env).1.display = w.display ∧
    (_bindPopup dev w env).1.showAfter = w.showAfter := by
  unfold _bindPopup
  simp only []
  split_ifs <;> simp

theorem bindPopup_reference (dev : Device) (mode : DisplayMode) (w : Popup) (env : Env)
    (h : w.display = mode.attr) :
    (_bindPopup dev w env).2 = arm w.uid env (referenceTrigger mode w.showAfter dev.isMobile) := by
  unfold _bindPopup
  cases mode <;> cases hm : dev.isMobile <;>
    simp [h, DisplayMode.attr, referenceTrigger, arm]

/-- The fields `uid`, `display` and `showAfter` never change. -/
theorem step_static (dev : Device) (s : Popup × Env) (e : Event) :
    (step dev s e).1.uid = s.1.uid ∧
    (step dev s e).1.display = s.1.display ∧
    (step dev s e).1.showAfter = s.1.showAfter := by
  obtain ⟨w, env⟩ := s
  cases e with
  | start =>
    show (start dev w env).state.1.uid = _ ∧ (start dev w env).state.1.display = _ ∧
      (start dev w env).state.1.showAfter = _
    rcases start_state dev w env with h | h <;> rw [h]
    · exact ⟨rfl, rfl, rfl⟩
    · exact bindPopup_static dev _ env
  | timerFire h =>
    unfold step onTimerFire
    simp only []
    split
    · exact ⟨rfl, rfl, rfl⟩
    · split
      · rw [showPopup_fst]; exact ⟨rfl, rfl, rfl⟩
      · exact ⟨rfl, rfl, rfl⟩
  | mouseLeave =>
    unfold step onMouseLeave
    rw [foldl_showPopup_fst]; exact ⟨rfl, rfl, rfl⟩
  | closeClick => exact ⟨rfl, rfl, rfl⟩
  | hideModal => exact ⟨rfl, rfl, rfl⟩
  | showModal => exact ⟨rfl, rfl, rfl⟩
  | destroy => exact ⟨rfl, rfl, rfl⟩

theorem step_delayQuiet (dev : Device) (u : Nat) (s : Popup × Env) (e : Event)
    (he : ∀ h, e ≠ Event.timerFire h) (hq : DelayQuiet u s) : DelayQuiet u (step dev s e) := by
  obtain ⟨hu, hd, hl, hs⟩ := hq
  obtain ⟨h1, h2, _⟩ := step_static dev s e
  refine ⟨h1.trans hu, h2.trans hd, ?_⟩
  obtain ⟨w, env⟩ := s
  simp only [] at hu hd hl hs
  cases e with
  | start =>
    show listenersOf u (start dev w env).state.2 = [] ∧ showCount u (start dev w env).state.2 = 0
    rcases start_state dev w env with h | h <;> rw [h]
    · exact ⟨hl, hs⟩
    · have hb := bindPopup_reference dev DisplayMode.afterDelay
        { w with _popupAlreadyShown := truthy (getCookie env.cookies w.id) } env hd
      rw [hb]
      exact ⟨hl, hs⟩
  | timerFire h => exact absurd rfl (he h)
  | mouseLeave =>
    unfold step onMouseLeave
    have : List.filter (fun x => x == w.uid) env.mouseleave = [] := by
      rw [hu]; exact hl
    rw [this]
    exact ⟨hl, hs⟩
  | closeClick =>
    refine ⟨hl, ?_⟩
    simpa [step, _onCloseClick, _hidePopup, showCount, List.filter_append] using hs
  | hideModal => exact ⟨hl, hs⟩
  | showModal => exact ⟨hl, hs⟩
  | destroy =>
    unfold step destroy
    simp only []
    cases w.timeout
    · refine ⟨rfl, ?_⟩
      simpa [showCount, List.filter_append] using hs
    · refine ⟨rfl, ?_⟩
      simpa [showCount, List.filter_append] using hs

theorem run_delayQuiet (dev : Device) (u : Nat) (evs : List Event) (s : Popup × Env)
    (he : ∀ h, Event.timerFire h ∉ evs) (hq : DelayQuiet u s) :
    DelayQuiet u (run dev s evs) := by
  induction evs generalizing s with
  | nil => exact hq
  | cons e es ih =>
    refine ih _ (fun h hm => he h (List.mem_cons_of_mem _ hm)) ?_
    exact step_delayQuiet dev u s e (fun h heq => he h (heq ▸ List.mem_cons_self _ _)) hq



theorem timersOf_filter_nil (u : Nat) (env : Env) (p : Timer → Bool)
    (h : timersOf u env = []) :
    timersOf u { env with timers := env.timers.filter p } = [] := by
  unfold timersOf at *
  simp only [List.filter_filter]
  rw [List.filter_eq_nil_iff] at *
  intro t ht
  have := h t ht
  simp [this]

theorem step_exitQuiet (dev : Device) (hdev : dev.isMobile = false) (u : Nat)
    (s : Popup × Env) (e : Event)
    (he : e ≠ Event.mouseLeave) (hq : ExitQuiet u s) : ExitQuiet u (step dev s e) := by
  obtain ⟨hu, hd, hl, hs⟩ := hq
  obtain ⟨h1, h2, _⟩ := step_static dev s e
  refine ⟨h1.trans hu, h2.trans hd, ?_⟩
  obtain ⟨w, env⟩ := s
  simp only [] at hu hd hl hs
  cases e with
  | start =>
    show timersOf u (start dev w env).state.2 = [] ∧ showCount u (start dev w env).state.2 = 0
    rcases start_state dev w env with h | h <;> rw [h]
    · exact ⟨hl, hs⟩
    · have hb := bindPopup_reference dev DisplayMode.mouseExit
        { w with _popupAlreadyShown := truthy (getCookie env.cookies w.id) } env hd
      rw [hb, hdev]
      exact ⟨hl, hs⟩
  | timerFire h =>
    unfold step onTimerFire
    simp only []
    split
    · exact ⟨hl, hs⟩
    · rename_i t ht
      have hmem := List.mem_of_find?_eq_some ht
      have hown : (t.owner == w.uid) = false := by
        unfold timersOf at hl
        rw [List.filter_eq_nil_iff] at hl
        have := hl t hmem
        rw [hu]
        simpa using this
      rw [hown]
      exact ⟨timersOf_filter_nil u env _ hl, hs⟩
  | mouseLeave => exact absurd rfl he
  | closeClick =>
    refine ⟨hl, ?_⟩
    simpa [step, _onCloseClick, _hidePopup, showCount, List.filter_append] using hs
  | hideModal => exact ⟨hl, hs⟩
  | showModal => exact ⟨hl, hs⟩
  | destroy =>
    unfold step destroy
    simp only []
    cases w.timeout
    · refine ⟨hl, ?_⟩
      simpa [showCount, List.filter_append] using hs
    · refine ⟨timersOf_filter_nil u _ _ hl, ?_⟩
      simpa [showCount, List.filter_append] using hs

theorem run_exitQuiet (dev : Device) (hdev : dev.isMobile = false) (u : Nat)
    (evs : List Event) (s : Popup × Env)
    (he : Event.mouseLeave ∉ evs) (hq : ExitQuiet u s) :
    ExitQuiet u (run dev s evs) := by
  induction evs generalizing s with
  | nil => exact hq
  | cons e es ih =>
    refine ih _ (fun hm => he (List.mem_cons_of_mem _ hm)) ?_
    exact step_exitQuiet dev hdev u s e (fun heq => he (heq ▸ List.mem_cons_self _ _)) hq

theorem run_append (dev : Device) (s : Popup × Env) (xs ys : List Event) :
    run dev s (xs ++ ys) = run dev (run dev s xs) ys := by
  unfold run; rw [List.foldl_append]

/-- While the flag is unset and one handler of the instance is bound, each
`mouseleave` adds one `show` request. -/
theorem run_mouseLeaves (dev : Device) (n : Nat) (w : Popup) (env : Env)
    (hf : w._popupAlreadyShown = false) (hl : listenersOf w.uid env = [w.uid]) :
    showCount w.uid (run dev (w, env) (List.replicate n Event.mouseLeave)).2
      = showCount w.uid env + n := by
  induction n generalizing env with
  | zero => rfl
  | succ k ih =>
    have hstep : step dev (w, env) Event.mouseLeave =
        (w, { env with modalReqs := env.modalReqs ++ [(w.uid, ModalReq.showReq)] }) := by
      unfold step onMouseLeave
      have : List.filter (fun u => u == w.uid) env.mouseleave = [w.uid] := hl
      simp only []
      rw [this]
      simp only [List.foldl_cons, List.foldl_nil]
      exact showPopup_of_not_shown w env hf
    rw [List.replicate_succ]
    unfold run
    rw [List.foldl_cons, hstep]
    have := ih { env with modalReqs := env.modalReqs ++ [(w.uid, ModalReq.showReq)] } hl
    unfold run at this
    rw [this]
    simp [showCount, List.filter_append]
    omega

theorem run_keeps_flag (dev : Device) (evs : List Event) (s : Popup × Env) (hi : AckInv s)
    (h : s.1._popupAlreadyShown = true) :
    AckInv (run dev s evs) ∧ (run dev s evs).1._popupAlreadyShown = true := by
  induction evs generalizing s with
  | nil => exact ⟨hi, h⟩
  | cons e es ih => exact ih _ (step_ackInv dev s e hi) (step_keeps_flag dev s e hi h)


theorem find?_setCookie_same (store : List Cookie) (n : CookieName) (v : CookieValue)
    (ttl : Nat) (ty : String) :
    (setCookie store n v ttl ty).find? (fun c => c.name == n) = some ⟨n, v, ttl, ty⟩ := by
  unfold setCookie
  rw [List.find?_append]
  have h : (List.filter (fun c => c.name != n) store).find? (fun c => c.name == n) = none := by
    rw [List.find?_eq_none]
    intro c hc
    simp only [List.mem_filter] at hc
    simpa using hc.2
  rw [h]
  simp

theorem find?_filter_of_imp {α : Type} (p q : α → Bool) (l : List α)
    (h : ∀ a, p a = true → q a = true) : (l.filter q).find? p = l.find? p := by
  induction l with
  | nil => rfl
  | cons a as ih =>
    by_cases hq : q a = true
    · rw [List.filter_cons_of_pos hq]
      simp only [List.find?_cons, ih]
    · have hp : p a = false := by
        cases hpa : p a
        · rfl
        · exact absurd (h a hpa) hq
      rw [List.filter_cons_of_neg hq, List.find?_cons, hp, ih]

theorem find?_setCookie_ne (store : List Cookie) (n m : CookieName) (v : CookieValue)
    (ttl : Nat) (ty : String) (hne : n ≠ m) :
    (setCookie store n v ttl ty).find? (fun c => c.name == m)
      = store.find? (fun c => c.name == m) := by
  unfold setCookie
  rw [List.find?_append, find?_filter_of_imp]
  · have : ((n == m) = false) := by simpa using hne
    simp [this]
  · intro c hc
    have hcm : c.name = m := by simpa using hc
    simp only [bne_iff_ne, ne_eq]
    rw [hcm]
    exact fun h => hne h.symm

theorem lookup_trackingFields (key name : String)
    (h : cookies_bar.trackingFields.lookup key = some name) :
    name = "odoo_utm_campaign" ∨ name = "odoo_utm_source" ∨ name = "odoo_utm_medium" := by
  unfold cookies_bar.trackingFields at h
  simp only [List.lookup] at h
  split at h
  · exact Or.inl (Option.some.inj h).symm
  · split at h
    · exact Or.inr (Or.inl (Option.some.inj h).symm)
    · split at h
      · exact Or.inr (Or.inr (Option.some.inj h).symm)
      · exact absurd h (by simp)

theorem trackingFieldsGet_ne_barId (key : String) :
    cookies_bar.trackingFieldsGet key ≠ CookieName.str cookies_bar.barId := by
  unfold cookies_bar.trackingFieldsGet
  cases hl : cookies_bar.trackingFields.lookup key with
  | none =>
    simp only []
    split <;> simp
  | some name =>
    simp only [ne_eq, CookieName.str.injEq]
    rcases lookup_trackingFields key name hl with h | h | h <;> rw [h] <;> decide

theorem find?_trackParams (params : List (String × String)) (store : List Cookie) :
    (cookies_bar.trackParams store params).find?
        (fun c => c.name == CookieName.str cookies_bar.barId)
      = store.find? (fun c => c.name == CookieName.str cookies_bar.barId) := by
  induction params generalizing store with
  | nil => rfl
  | cons kv rest ih =>
    obtain ⟨key, value⟩ := kv
    unfold cookies_bar.trackParams
    split
    · rw [ih, find?_setCookie_ne _ _ _ _ _ _ (trackingFieldsGet_ne_barId key)]
    · exact ih store




theorem bindPopup_timerEffect (dev : Device) (w : Popup) (env : Env) :
    TimerEffect w env (_bindPopup dev w env) := by
  unfold _bindPopup
  simp only []
  split_ifs
  all_goals first
    | exact TimerEffect.added 5000 rfl rfl rfl
    | exact TimerEffect.added w.showAfter rfl rfl rfl
    | exact TimerEffect.same rfl rfl rfl

theorem apply_timerEffect (dev : Device) (op : Op) (w : Popup) (env : Env) :
    TimerEffect w env (op.apply dev w env) := by
  cases op with
  | start =>
    show TimerEffect w env (start dev w env).state
    rcases start_state dev w env with h | h <;> rw [h]
    · exact TimerEffect.same rfl rfl rfl
    · have := bindPopup_timerEffect dev
        { w with _popupAlreadyShown := truthy (getCookie env.cookies w.id) } env
      cases this with
      | same ht hh hn => exact TimerEffect.same ht hh hn
      | added d ht hh hn => exact TimerEffect.added d ht hh hn
      | cleared h hw ht hh hn => exact TimerEffect.cleared h hw ht hh hn
  | bindPopup => exact bindPopup_timerEffect dev w env
  | showPopup =>
    show TimerEffect w env (_showPopup w env)
    unfold _showPopup
    split <;> exact TimerEffect.same rfl rfl rfl
  | onHideModal => exact TimerEffect.same rfl rfl rfl
  | destroy =>
    show TimerEffect w env (destroy w env)
    unfold destroy
    simp only []
    cases hw : w.timeout with
    | none => exact TimerEffect.same rfl rfl rfl
    | some h => exact TimerEffect.cleared h hw rfl rfl rfl
  | onCloseClick => exact TimerEffect.same rfl rfl rfl
  | onShowModal => exact TimerEffect.same rfl rfl rfl

theorem apply_uid (dev : Device) (op : Op) (w : Popup) (env : Env) :
    (op.apply dev w env).1.uid = w.uid := by
  cases op with
  | start =>
    show (start dev w env).state.1.uid = w.uid
    rcases start_state dev w env with h | h <;> rw [h]
    exact (bindPopup_static dev _ env).1
  | bindPopup => exact (bindPopup_static dev w env).1
  | showPopup => show (_showPopup w env).1.uid = w.uid; rw [showPopup_fst]
  | onHideModal => rfl
  | destroy => rfl
  | onCloseClick => rfl
  | onShowModal => rfl

/-- One instance runs an operation: the handles of both instances stay sound.
`w` is the instance that runs it, `o` the other one. -/
theorem timerEffect_handles (w o : Popup) (env : Env) (r : Popup × Env)
    (he : TimerEffect w env r)
    (ht : ∀ t ∈ env.timers, t.handle < env.nextHandle)
    (hw : ∀ h, w.timeout = some h →
      h < env.nextHandle ∧ ∀ t ∈ env.timers, t.handle = h → t.owner = w.uid)
    (ho : ∀ h, o.timeout = some h →
      h < env.nextHandle ∧ ∀ t ∈ env.timers, t.handle = h → t.owner = o.uid) :
    (∀ t ∈ r.2.timers, t.handle < r.2.nextHandle) ∧
    (∀ h, r.1.timeout = some h →
      h < r.2.nextHandle ∧ ∀ t ∈ r.2.timers, t.handle = h → t.owner = w.uid) ∧
    (∀ h, o.timeout = some h →
      h < r.2.nextHandle ∧ ∀ t ∈ r.2.timers, t.handle = h → t.owner = o.uid) := by
  cases he with
  | same e1 e2 e3 =>
    rw [e1, e2, e3]; exact ⟨ht, hw, ho⟩
  | added d e1 e2 e3 =>
    rw [e1, e2, e3]
    refine ⟨?_, ?_, ?_⟩
    · intro t htm
      rcases List.mem_append.1 htm with h | h
      · exact Nat.lt_succ_of_lt (ht t h)
      · simp only [List.mem_singleton] at h
        rw [h]; exact Nat.lt_succ_self _
    · intro h hh
      have hh2 : env.nextHandle = h := Option.some.inj hh
      refine ⟨by omega, ?_⟩
      intro t htm hth
      rcases List.mem_append.1 htm with hm | hm
      · have := ht t hm
        omega
      · simp only [List.mem_singleton] at hm
        rw [hm]
    · intro h hh
      obtain ⟨h1, h2⟩ := ho h hh
      refine ⟨by omega, ?_⟩
      intro t htm hth
      rcases List.mem_append.1 htm with hm | hm
      · exact h2 t hm hth
      · simp only [List.mem_singleton] at hm
        rw [hm] at hth
        simp only [] at hth
        omega
  | cleared k e0 e1 e2 e3 =>
    rw [e1, e2, e3]
    refine ⟨?_, ?_, ?_⟩
    · intro t htm
      exact ht t (List.mem_filter.1 htm).1
    · intro h hh
      obtain ⟨h1, h2⟩ := hw h hh
      exact ⟨h1, fun t htm => h2 t (List.mem_filter.1 htm).1⟩
    · intro h hh
      obtain ⟨h1, h2⟩ := ho h hh
      exact ⟨h1, fun t htm => h2 t (List.mem_filter.1 htm).1⟩

theorem callShowPopup_frame (p : Page) (u : Nat) :
    (p.callShowPopup u).a = p.a ∧ (p.callShowPopup u).b = p.b ∧
    (p.callShowPopup u).env.timers = p.env.timers ∧
    (p.callShowPopup u).env.nextHandle = p.env.nextHandle ∧
    (p.callShowPopup u).env.mouseleave = p.env.mouseleave ∧
    (p.callShowPopup u).env.cookies = p.env.cookies := by
  unfold Page.callShowPopup
  split
  · simp only [showPopup_fst]
    unfold _showPopup
    split <;> simp
  · split
    · simp only [showPopup_fst]
      unfold _showPopup
      split <;> simp
    · simp

theorem callShowPopup_handles (p : Page) (u : Nat) (h : p.HandlesOk) :
    (p.callShowPopup u).HandlesOk := by
  obtain ⟨h1, h2, h3, h4, _, _⟩ := callShowPopup_frame p u
  unfold Page.HandlesOk
  rw [h1, h2, h3, h4]
  exact h

theorem foldl_callShowPopup_handles (l : List Nat) (p : Page) (h : p.HandlesOk) :
    (l.foldl Page.callShowPopup p).HandlesOk := by
  induction l generalizing p with
  | nil => exact h
  | cons u us ih => exact ih _ (callShowPopup_handles p u h)

theorem step_handles (dev : Device) (p : Page) (e : PageEvent) (h : p.HandlesOk) :
    (p.step dev e).HandlesOk := by
  obtain ⟨hne, ht, ha, hb⟩ := h
  cases e with
  | a op =>
    obtain ⟨r1, r2, r3⟩ := timerEffect_handles p.a p.b p.env _
      (apply_timerEffect dev op p.a p.env) ht ha hb
    refine ⟨?_, r1, ?_, r3⟩
    · show (op.apply dev p.a p.env).1.uid ≠ p.b.uid
      rw [apply_uid]; exact hne
    · intro h hh
      obtain ⟨x, y⟩ := r2 h hh
      exact ⟨x, fun t htm hth => (y t htm hth).trans (apply_uid dev op p.a p.env).symm⟩
  | b op =>
    obtain ⟨r1, r2, r3⟩ := timerEffect_handles p.b p.a p.env _
      (apply_timerEffect dev op p.b p.env) ht hb ha
    refine ⟨?_, r1, r3, ?_⟩
    · show p.a.uid ≠ (op.apply dev p.b p.env).1.uid
      rw [apply_uid]; exact hne
    · intro h hh
      obtain ⟨x, y⟩ := r2 h hh
      exact ⟨x, fun t htm hth => (y t htm hth).trans (apply_uid dev op p.b p.env).symm⟩
  | mouseLeave => exact foldl_callShowPopup_handles _ p ⟨hne, ht, ha, hb⟩
  | timerFire k =>
    unfold Page.step
    simp only []
    split
    · exact ⟨hne, ht, ha, hb⟩
    · apply callShowPopup_handles
      refine ⟨hne, ?_, ?_, ?_⟩
      · intro t htm
        exact ht t (List.mem_filter.1 htm).1
      · intro h hh
        obtain ⟨h1, h2⟩ := ha h hh
        exact ⟨h1, fun t htm => h2 t (List.mem_filter.1 htm).1⟩
      · intro h hh
        obtain ⟨h1, h2⟩ := hb h hh
        exact ⟨h1, fun t htm => h2 t (List.mem_filter.1 htm).1⟩

theorem run_handles (dev : Device) (evs : List PageEvent) (p : Page) (h : p.HandlesOk) :
    (p.run dev evs).HandlesOk := by
  induction evs generalizing p with
  | nil => exact h
  | cons e es ih => exact ih _ (step_handles dev p e h)

theorem init_handles (a b : Popup) (cookies : List Cookie) (nh : Nat) (h : a.uid ≠ b.uid) :
    (Page.init a b cookies nh).HandlesOk :=
  ⟨h, fun t ht => by simp [Page.init, freshEnv] at ht,
    fun k hk => by simp [Page.init, fresh] at hk,
    fun k hk => by simp [Page.init, fresh] at hk⟩

/-- What an operation of one instance does to the rest of the global state: it
adds modal requests of its own only, it binds at most one handler of its own
(and `destroy` unbinds every handler), and it writes at most the cookie under
its own id. -/
theorem apply_frame (dev : Device) (op : Op) (w : Popup) (env : Env) :
    (∃ l, (op.apply dev w env).2.modalReqs = env.modalReqs ++ l ∧ ∀ r ∈ l, r.1 = w.uid) ∧
    (op ≠ Op.destroy →
      (op.apply dev w env).2.mouseleave = env.mouseleave ∨
      (op.apply dev w env).2.mouseleave = env.mouseleave ++ [w.uid]) ∧
    (op = Op.destroy → (op.apply dev w env).2.mouseleave = []) ∧
    ((op.apply dev w env).2.cookies = env.cookies ∨
      ∃ v ttl ty, (op.apply dev w env).2.cookies
        = setCookie env.cookies (CookieName.str w.id) v ttl ty) := by
  have hbind : ∀ w' : Popup, w'.uid = w.uid →
      (∃ l, (_bindPopup dev w' env).2.modalReqs = env.modalReqs ++ l ∧ ∀ r ∈ l, r.1 = w.uid) ∧
      ((_bindPopup dev w' env).2.mouseleave = env.mouseleave ∨
        (_bindPopup dev w' env).2.mouseleave = env.mouseleave ++ [w.uid]) ∧
      (_bindPopup dev w' env).2.cookies = env.cookies := by
    intro w' hu
    obtain ⟨t, ht⟩ := bindPopup_arms_one dev w' env
    rw [ht, hu]
    cases t with
    | timer d => exact ⟨⟨[], by simp [arm], by simp⟩, Or.inl rfl, rfl⟩
    | mouseLeave => exact ⟨⟨[], by simp [arm], by simp⟩, Or.inr rfl, rfl⟩
  cases op with
  | start =>
    show (∃ l, (start dev w env).state.2.modalReqs = _ ∧ _) ∧
      (_ → (start dev w env).state.2.mouseleave = _ ∨
        (start dev w env).state.2.mouseleave = _) ∧
      (_ → (start dev w env).state.2.mouseleave = _) ∧
      ((start dev w env).state.2.cookies = _ ∨
        ∃ v ttl ty, (start dev w env).state.2.cookies = _)
    rcases start_state dev w env with h | h <;> rw [h]
    · exact ⟨⟨[], by simp, by simp⟩, fun _ => Or.inl rfl, (fun h => nomatch h), Or.inl rfl⟩
    · obtain ⟨h1, h2, h3⟩ := hbind
        { w with _popupAlreadyShown := truthy (getCookie env.cookies w.id) } rfl
      exact ⟨h1, fun _ => h2, (fun h => nomatch h), Or.inl h3⟩
  | bindPopup =>
    obtain ⟨h1, h2, h3⟩ := hbind w rfl
    exact ⟨h1, fun _ => h2, (fun h => nomatch h), Or.inl h3⟩
  | showPopup =>
    show (∃ l, (_showPopup w env).2.modalReqs = _ ∧ _) ∧ (_ → (_showPopup w env).2.mouseleave = _ ∨
      (_showPopup w env).2.mouseleave = _) ∧ (_ → (_showPopup w env).2.mouseleave = _) ∧
      ((_showPopup w env).2.cookies = _ ∨ ∃ v ttl ty, (_showPopup w env).2.cookies = _)
    unfold _showPopup
    split
    · exact ⟨⟨[], by simp, by simp⟩, fun _ => Or.inl rfl, (fun h => nomatch h), Or.inl rfl⟩
    · exact ⟨⟨[(w.uid, ModalReq.showReq)], rfl, by simp⟩, fun _ => Or.inl rfl,
        (fun h => nomatch h), Or.inl rfl⟩
  | onHideModal =>
    exact ⟨⟨[], by simp [Op.apply, _onHideModal], by simp⟩, fun _ => Or.inl rfl,
      (fun h => nomatch h), Or.inr ⟨_, _, _, rfl⟩⟩
  | destroy =>
    refine ⟨⟨[(w.uid, ModalReq.hideReq)], ?_, by simp⟩, fun h => absurd rfl h, fun _ => ?_,
      Or.inl ?_⟩
    all_goals
      show _ = _
      simp only [Op.apply, destroy]
      cases w.timeout <;> rfl
  | onCloseClick =>
    exact ⟨⟨[(w.uid, ModalReq.hideReq)], rfl, by simp⟩, fun _ => Or.inl rfl,
      (fun h => nomatch h), Or.inl rfl⟩
  | onShowModal =>
    exact ⟨⟨[], by simp [Op.apply, _onShowModal], by simp⟩, fun _ => Or.inl rfl,
      (fun h => nomatch h), Or.inl rfl⟩

/-- An operation of the instance `w` leaves the pending timers of another
instance `u` alone, as long as the handle `w` keeps is not the handle of a timer
of another owner. -/
theorem timerEffect_timersOf (w : Popup) (env : Env) (r : Popup × Env) (u : Nat)
    (he : TimerEffect w env r) (hu : w.uid ≠ u)
    (hw : ∀ h, w.timeout = some h → ∀ t ∈ env.timers, t.handle = h → t.owner = w.uid) :
    timersOf u r.2 = timersOf u env := by
  unfold timersOf
  cases he with
  | same e1 _ _ => rw [e1]
  | added d e1 _ _ =>
    rw [e1, List.filter_append]
    have : ((w.uid == u) = false) := by simpa using hu
    simp [this]
  | cleared k e0 e1 _ _ =>
    rw [e1, List.filter_filter]
    apply List.filter_congr
    intro t ht
    cases ho : (t.owner == u)
    · simp
    · have hne : t.handle ≠ k := by
        intro hk
        have := hw k e0 t ht hk
        have ho2 : t.owner = u := by simpa using ho
        exact hu (this.symm.trans ho2)
      simp [hne]

theorem hiddenBlock_eq_true_iff (dev : Device) (el : Block) :
    hiddenBlock (decide (dev.size_class < dev.LG)) el = some true ↔
      (¬ el.selectorThrows ∧ (el.deviceInvisible dev ∨ el.matchesOwnSelectors)) := by
  have h1 := hiddenBlock_eq_none_iff (decide (dev.size_class < dev.LG)) el
  have h2 := hiddenBlock_eq_false_iff dev el
  cases hv : hiddenBlock (decide (dev.size_class < dev.LG)) el with
  | none =>
    rw [hv] at h1
    simp only [true_iff] at h1
    simp [h1]
  | some b =>
    rw [hv] at h1 h2
    have hnt : ¬ el.selectorThrows := fun h => by simpa using h1.2 h
    cases b
    · have := h2.1 rfl
      simp [this.2.1, this.2.2]
    · simp only [true_iff]
      refine ⟨hnt, ?_⟩
      by_contra hcon
      have hcon2 : ¬ el.deviceInvisible dev ∧ ¬ el.matchesOwnSelectors := by
        constructor
        · exact fun h => hcon (Or.inl h)
        · exact fun h => hcon (Or.inr h)
      have := h2.2 ⟨hnt, hcon2.1, hcon2.2⟩
      simp at this

theorem every_append_none {α : Type} (f : α → Option Bool) (pre : List α) (a : α)
    (post : List α) (hpre : ∀ b ∈ pre, f b = some true) (ha : f a = none) :
    every f (pre ++ a :: post) = none := by
  induction pre with
  | nil => simp [every, ha]
  | cons b rest ih =>
    have hrest := ih (fun c hc => hpre c (List.mem_cons_of_mem _ hc))
    have hb := hpre b (List.mem_cons_self _ _)
    show every f (b :: (rest ++ a :: post)) = none
    unfold every
    simp [hb, hrest]

theorem step_exitArmed (dev : Device) (u : Nat) (s : Popup × Env) (e : Event)
    (he : e.isInterlude = true) (hq : ExitArmed u s) :
    ExitArmed u (step dev s e) ∧
    showCount u (step dev s e).2
      = showCount u s.2 + (if e = Event.mouseLeave then 1 else 0) := by
  obtain ⟨w, env⟩ := s
  obtain ⟨hu, hf, hl, ht⟩ := hq
  simp only [] at hu hf hl ht
  cases e with
  | start => simp [Event.isInterlude] at he
  | destroy => simp [Event.isInterlude] at he
  | hideModal => simp [Event.isInterlude] at he
  | mouseLeave =>
    have hstep : step dev (w, env) Event.mouseLeave =
        (w, { env with modalReqs := env.modalReqs ++ [(w.uid, ModalReq.showReq)] }) := by
      unfold step onMouseLeave
      have : List.filter (fun x => x == w.uid) env.mouseleave = [w.uid] := by
        rw [hu]; exact hl
      simp only []
      rw [this]
      simp only [List.foldl_cons, List.foldl_nil]
      exact showPopup_of_not_shown w env hf
    rw [hstep]
    refine ⟨⟨hu, hf, hl, ht⟩, ?_⟩
    simp [showCount, List.filter_append, hu]
  | closeClick =>
    refine ⟨⟨hu, hf, hl, ht⟩, ?_⟩
    simp [step, _onCloseClick, _hidePopup, showCount, List.filter_append]
  | showModal => exact ⟨⟨hu, hf, hl, ht⟩, by simp [step, _onShowModal]⟩
  | timerFire h =>
    unfold step onTimerFire
    simp only []
    split
    · exact ⟨⟨hu, hf, hl, ht⟩, by simp⟩
    · rename_i t hfind
      have hmem := List.mem_of_find?_eq_some hfind
      have hown : (t.owner == w.uid) = false := by
        unfold timersOf at ht
        rw [List.filter_eq_nil_iff] at ht
        have := ht t hmem
        rw [hu]
        simpa using this
      rw [hown]
      exact ⟨⟨hu, hf, hl, timersOf_filter_nil u env _ ht⟩, by simp [showCount]⟩

theorem run_exitArmed (dev : Device) (u : Nat) (evs : List Event) (s : Popup × Env)
    (he : ∀ e ∈ evs, e.isInterlude = true) (hq : ExitArmed u s) :
    ExitArmed u (run dev s evs) ∧
    showCount u (run dev s evs).2 = showCount u s.2 + evs.count Event.mouseLeave := by
  induction evs generalizing s with
  | nil => exact ⟨hq, rfl⟩
  | cons e es ih =>
    obtain ⟨h1, h2⟩ := step_exitArmed dev u s e (he e (List.mem_cons_self _ _)) hq
    obtain ⟨h3, h4⟩ := ih (step dev s e) (fun x hx => he x (List.mem_cons_of_mem _ hx)) h1
    refine ⟨h3, ?_⟩
    show showCount u (run dev (step dev s e) es).2 = _
    rw [h4, h2, List.count_cons]
    by_cases hem : e = Event.mouseLeave
    · simp [hem]; omega
    · have : (Event.mouseLeave == e) = false := by
        simpa using fun h => hem h.symm
      simp [hem, this]

/-! ## The claims -/

/-- C1: in every state a `PopupWidget` reaches from a new instance, whatever the
global state it starts in and whatever events it has seen, if
`_popupAlreadyShown` is true then `_showPopup` sends no modal request, no event
(start, timer, mouse leave, close click, hide, show, destroy) adds a `show`
request of any instance, and no event sets `_popupAlreadyShown` back to false. -/
theorem C1_acknowledged_popup_sends_no_show (dev : Device) (w : Popup) (env0 : Env)
    (evs : List PopupWidget.Event) (e : PopupWidget.Event) (u : Nat)
    (h : (PopupWidget.run dev (PopupWidget.fresh w, env0) evs).1._popupAlreadyShown = true) :
    (PopupWidget._showPopup (PopupWidget.run dev (PopupWidget.fresh w, env0) evs).1
        (PopupWidget.run dev (PopupWidget.fresh w, env0) evs).2).2.modalReqs
      = (PopupWidget.run dev (PopupWidget.fresh w, env0) evs).2.modalReqs ∧
    PopupWidget.showCount u
        (PopupWidget.step dev (PopupWidget.run dev (PopupWidget.fresh w, env0) evs) e).2
      = PopupWidget.showCount u (PopupWidget.run dev (PopupWidget.fresh w, env0) evs).2 ∧
    (PopupWidget.step dev (PopupWidget.run dev (PopupWidget.fresh w, env0) evs) e).1._popupAlreadyShown
      = true := by
  have hi := PopupWidget.run_ackInv dev evs _ (PopupWidget.fresh_ackInv w env0)
  refine ⟨?_, PopupWidget.step_showCount_of_shown dev _ e hi h u,
    PopupWidget.step_keeps_flag dev _ e hi h⟩
  rw [PopupWidget.showPopup_of_shown _ _ h]

/-- C1 at a concrete input: a popup is started, its timer fires, the modal hides;
the flag is then set, and a restart of the widget keeps it set and a pointer-leave
adds no `show` request. -/
theorem C1_acknowledged_popup_sends_no_show_witness :
    (run exDesktop (fresh exDelayPopup, freshEnv [] 0)
      [Event.start, Event.timerFire 0, Event.hideModal]).1._popupAlreadyShown = true ∧
    (step exDesktop (run exDesktop (fresh exDelayPopup, freshEnv [] 0)
      [Event.start, Event.timerFire 0, Event.hideModal]) Event.start).1._popupAlreadyShown
        = true :=
  ⟨by decide,
    (C1_acknowledged_popup_sends_no_show exDesktop exDelayPopup (freshEnv [] 0)
      [Event.start, Event.timerFire 0, Event.hideModal] Event.start 1 (by decide)).2.2⟩

/-- C2, the claim as worded fails: the popup has no cookie and its only content
block is not device-invisible and does not match its selectors, because its
`data-visibility-selectors` is the string `[[[`, on which `el.matches` throws.
`start` ends by that exception, after writing the flag, and arms nothing, where
the claim says it arms one trigger. -/
theorem C2_invalid_selector_arms_nothing :
    getCookie (freshEnv [] 0).cookies exBadSelectorPopup.id = "" ∧
    (∃ el ∈ exBadSelectorPopup.blocks,
      ¬ el.deviceInvisible exDesktop ∧ ¬ el.matchesOwnSelectors) ∧
    start exDesktop exBadSelectorPopup (freshEnv [] 0)
      = Outcome.threw (exBadSelectorPopup, freshEnv [] 0) ∧
    ¬ ∃ t, (start exDesktop exBadSelectorPopup (freshEnv [] 0)).state.2
      = arm exBadSelectorPopup.uid (freshEnv [] 0) t := by
  have hs : start exDesktop exBadSelectorPopup (freshEnv [] 0)
      = Outcome.threw (exBadSelectorPopup, freshEnv [] 0) := by decide
  refine ⟨by decide, ⟨exBadSelectorBlock, by simp [exBadSelectorPopup], ?_, ?_⟩, hs, ?_⟩
  · unfold Block.deviceInvisible; decide
  · rintro ⟨sel, hsel, hm⟩
    have : sel = "[[[" := by simpa [exBadSelectorBlock] using hsel.symm
    rw [this] at hm
    revert hm; decide
  · rintro ⟨t, ht⟩
    rw [hs] at ht
    cases t <;> simp [Outcome.state, arm, freshEnv] at ht

/-- C2 as amended: if every content block of the popup is invisible on the
current class of devices or matches its own `data-visibility-selectors`, `start`
leaves the global state as it is, whatever the cookie store holds and also when
it throws: no timer, no `mouseleave` handler. If no truthy cookie is stored
under the id of the popup, some content block is neither, and `el.matches`
throws on neither that block nor any block before it, `start` returns and has
armed exactly one trigger. If `el.matches` throws on a block and every block
before it is hidden without an exception, `start` ends by the exception, after
writing the flag, and the global state is as it was. -/
theorem C2_empty_popup_arms_nothing (dev : Device) (w : Popup) (env : Env) :
    ((∀ el ∈ w.blocks, el.deviceInvisible dev ∨ el.matchesOwnSelectors) →
      (start dev w env).state.2 = env) ∧
    (getCookie env.cookies w.id = "" →
      ∀ pre el post, w.blocks = pre ++ el :: post →
        (∀ b ∈ pre, ¬ b.selectorThrows) → ¬ el.selectorThrows →
        ¬ el.deviceInvisible dev → ¬ el.matchesOwnSelectors →
        ∃ r t, start dev w env = Outcome.returned r ∧ r.2 = arm w.uid env t) ∧
    (∀ pre el post, w.blocks = pre ++ el :: post →
      (∀ b ∈ pre, ¬ b.selectorThrows ∧ (b.deviceInvisible dev ∨ b.matchesOwnSelectors)) →
      el.selectorThrows →
      start dev w env = Outcome.threw
        ({ w with _popupAlreadyShown := truthy (getCookie env.cookies w.id) }, env)) := by
  refine ⟨?_, ?_, ?_⟩
  · intro h
    have he : emptyPopup dev w ≠ some false := by
      intro hf
      obtain ⟨el, hel, hfalse⟩ := every_eq_false _ _ hf
      obtain ⟨_, h1, h2⟩ := (hiddenBlock_eq_false_iff dev el).1 hfalse
      rcases h el hel with h | h
      · exact h1 h
      · exact h2 h
    rw [start_state_of_not_armed dev w env (Or.inr he)]
  · intro hc pre el post hsplit hpre hel h1 h2
    have he : emptyPopup dev w = some false := by
      unfold emptyPopup
      simp only []
      rw [hsplit]
      apply every_append_false
      · intro b hb hnone
        exact hpre b hb ((hiddenBlock_eq_none_iff _ b).1 hnone)
      · exact (hiddenBlock_eq_false_iff dev el).2 ⟨hel, h1, h2⟩
    have ht : truthy (getCookie env.cookies w.id) = false := by rw [hc]; rfl
    obtain ⟨t, harm⟩ := bindPopup_arms_one dev { w with _popupAlreadyShown := false } env
    exact ⟨_, t, start_of_armed dev w env ht he, harm⟩
  · intro pre el post hsplit hpre hel
    apply start_of_throw
    unfold emptyPopup
    simp only []
    rw [hsplit]
    apply every_append_none
    · intro b hb
      exact (hiddenBlock_eq_true_iff dev b).2 (hpre b hb)
    · exact (hiddenBlock_eq_none_iff _ el).2 hel

/-- C2 as amended, at concrete inputs: a popup whose only block is hidden on
desktop arms nothing on a desktop viewport; a popup with a visible block, no
selector and no cookie arms one trigger; the popup with the invalid selector
throws. -/
theorem C2_empty_popup_arms_nothing_witness :
    (start exDesktop exHiddenPopup (freshEnv [] 0)).state.2 = freshEnv [] 0 ∧
    (∃ r t, start exDesktop exDelayPopup (freshEnv [] 0) = Outcome.returned r ∧
      r.2 = arm exDelayPopup.uid (freshEnv [] 0) t) ∧
    start exDesktop exBadSelectorPopup (freshEnv [] 0)
      = Outcome.threw (exBadSelectorPopup, freshEnv [] 0) :=
  ⟨(C2_empty_popup_arms_nothing exDesktop exHiddenPopup (freshEnv [] 0)).1
      (by
        intro el hel
        have : el = exDesktopHiddenBlock := by simpa [exHiddenPopup] using hel
        rw [this]
        exact Or.inl (by unfold Block.deviceInvisible; decide)),
    (C2_empty_popup_arms_nothing exDesktop exDelayPopup (freshEnv [] 0)).2.1 (by decide)
      [] exVisibleBlock [] rfl (by simp)
      (by
        rintro ⟨sel, hsel, _⟩
        simp [exVisibleBlock] at hsel)
      (by unfold Block.deviceInvisible; decide)
      (by
        rintro ⟨sel, hsel, _⟩
        simp [exVisibleBlock] at hsel),
    (C2_empty_popup_arms_nothing exDesktop exBadSelectorPopup (freshEnv [] 0)).2.2
      [] exBadSelectorBlock [] rfl (by simp) ⟨"[[[", rfl, by decide, by decide⟩⟩

/-- C3: the trigger `_bindPopup` arms is the reference function of
(display, showAfter, isMobile): `afterDelay` gives a timer of `showAfter` ms on
every device, `mouseExit` gives a timer of 5000 ms on a mobile device and a
`mouseleave` handler elsewhere. The global state after the call is the state
before with exactly that one trigger armed, so the instance has one trigger more
and the log of modal requests is unchanged. With `afterDelay` and 2000 ms,
started on a page where nothing is armed: as long as no timer fires, no `show`
request is sent; and when the popup is neither acknowledged nor empty
(`emptyPopup` computed without exception), the pending timer is the one of
2000 ms and its firing sends one `show` request. -/
theorem C3_bindPopup_arms_reference_trigger (dev : Device) (mode : DisplayMode)
    (showAfter : Nat) (w : Popup) (env : Env) :
    (_bindPopup dev { w with display := mode.attr, showAfter := showAfter } env).2
      = arm w.uid env (referenceTrigger mode showAfter dev.isMobile) ∧
    (triggersOf w.uid
        (_bindPopup dev { w with display := mode.attr, showAfter := showAfter } env).2).length
      = (triggersOf w.uid env).length + 1 ∧
    (_bindPopup dev { w with display := mode.attr, showAfter := showAfter } env).2.modalReqs
      = env.modalReqs ∧
    (∀ (cookies : List Cookie) (nh : Nat) (evs : List Event),
      (∀ h, Event.timerFire h ∉ evs) →
      showCount w.uid
        (run dev (fresh { w with display := "afterDelay", showAfter := 2000 },
          freshEnv cookies nh) (Event.start :: evs)).2 = 0) ∧
    (∀ (cookies : List Cookie) (nh : Nat),
      getCookie cookies w.id = "" → emptyPopup dev w = some false →
      (run dev (fresh { w with display := "afterDelay", showAfter := 2000 },
          freshEnv cookies nh) [Event.start]).2.timers = [⟨nh, w.uid, 2000⟩] ∧
      showCount w.uid
        (run dev (fresh { w with display := "afterDelay", showAfter := 2000 },
          freshEnv cookies nh) [Event.start, Event.timerFire nh]).2 = 1) := by
  have href := bindPopup_reference dev mode
    { w with display := mode.attr, showAfter := showAfter } env rfl
  refine ⟨href, ?_, (bindPopup_frame dev _ env).2.2.2.2.2, ?_, ?_⟩
  · rw [href]
    cases referenceTrigger mode showAfter dev.isMobile <;>
      simp [triggersOf, timersOf, listenersOf, arm, List.filter_append] <;> omega
  · intro cookies nh evs he
    have h0 : DelayQuiet w.uid
        (fresh { w with display := "afterDelay", showAfter := 2000 }, freshEnv cookies nh) :=
      ⟨rfl, rfl, rfl, rfl⟩
    have h1 := step_delayQuiet dev w.uid _ Event.start (fun h => by simp) h0
    exact (run_delayQuiet dev w.uid evs _ he h1).2.2.2
  · intro cookies nh hc hb
    have ht : truthy (getCookie (freshEnv cookies nh).cookies
        (fresh { w with display := "afterDelay", showAfter := 2000 }).id) = false := by
      show truthy (getCookie cookies w.id) = false
      rw [hc]; rfl
    have hs : step dev (fresh { w with display := "afterDelay", showAfter := 2000 },
          freshEnv cookies nh) Event.start
        = ({ fresh { w with display := "afterDelay", showAfter := 2000 } with
              timeout := some nh },
            arm w.uid (freshEnv cookies nh) (Trigger.timer 2000)) := by
      show (start dev _ _).state = _
      rw [start_of_armed dev _ _ ht hb]
      unfold _bindPopup
      simp [Outcome.state, fresh, arm, freshEnv]
    constructor
    · show (step dev _ Event.start).2.timers = _
      rw [hs]; rfl
    · show showCount w.uid (step dev (step dev _ Event.start) (Event.timerFire nh)).2 = 1
      rw [hs]
      simp [step, onTimerFire, _showPopup, _canShowPopup, showCount, arm, freshEnv, fresh]

/-- C3 at a concrete input: a popup with `afterDelay` and 2000 ms is started;
a pointer-leave and a `show.bs.modal` event follow, no timer fires, and no
`show` request has been sent. -/
theorem C3_bindPopup_arms_reference_trigger_witness :
    (∀ h, Event.timerFire h ∉ [Event.mouseLeave, Event.showModal]) ∧
    showCount exDelayPopup.uid
      (run exDesktop (fresh { exDelayPopup with display := "afterDelay", showAfter := 2000 },
        freshEnv [] 0) [Event.start, Event.mouseLeave, Event.showModal]).2 = 0 :=
  ⟨fun h => by simp,
    (C3_bindPopup_arms_reference_trigger exDesktop DisplayMode.afterDelay 2000 exDelayPopup
      (freshEnv [] 0)).2.2.2.1 [] 0 [Event.mouseLeave, Event.showModal] (fun h => by simp)⟩

/-- C4, the claim as worded fails: on a desktop viewport, for a popup in
`mouseExit` mode that is neither acknowledged nor empty, the first pointer-leave
sends one `show` request and a second pointer-leave, arriving before any hide
event, sends a second one. -/
theorem C4_second_pointer_leave_requests_again :
    exDesktop.isMobile = false ∧ exMouseExitPopup.display = "mouseExit" ∧
    getCookie [] exMouseExitPopup.id = "" ∧
    emptyPopup exDesktop exMouseExitPopup = some false ∧
    showCount 2 (run exDesktop (fresh exMouseExitPopup, freshEnv [] 0)
      [Event.start, Event.mouseLeave]).2 = 1 ∧
    showCount 2 (run exDesktop (fresh exMouseExitPopup, freshEnv [] 0)
      [Event.start, Event.mouseLeave, Event.mouseLeave]).2 = 2 := by
  decide

/-- C4 as amended: for a popup in `mouseExit` mode on a non-mobile device, neither
acknowledged nor empty (`emptyPopup` computed without exception), started on a
page where nothing is armed, the handler stays bound. No `show` request is sent
before the first pointer-leave. In every sequence of pointer-leaves, clicks on
the close button, `show.bs.modal` events and firing timers that follows the
start, each pointer-leave sends exactly one `show` request: the requests sent
are as many as the pointer-leaves, and one more pointer-leave adds one more. A
pointer-leave after a hide event sends none, whatever came before and between. -/
theorem C4_mouse_exit_handler_stays_bound (dev : Device) (w : Popup)
    (cookies : List Cookie) (nh : Nat)
    (hdev : dev.isMobile = false) (hd : w.display = "mouseExit")
    (hc : getCookie cookies w.id = "") (hb : emptyPopup dev w = some false) :
    (∀ evs, Event.mouseLeave ∉ evs →
      showCount w.uid
        (run dev (fresh w, freshEnv cookies nh) (Event.start :: evs)).2 = 0) ∧
    (∀ evs, (∀ e ∈ evs, e.isInterlude = true) →
      showCount w.uid
        (run dev (fresh w, freshEnv cookies nh) (Event.start :: evs)).2
      = evs.count Event.mouseLeave) ∧
    (∀ evs, (∀ e ∈ evs, e.isInterlude = true) →
      showCount w.uid
        (run dev (fresh w, freshEnv cookies nh) (Event.start :: (evs ++ [Event.mouseLeave]))).2
      = showCount w.uid
        (run dev (fresh w, freshEnv cookies nh) (Event.start :: evs)).2 + 1) ∧
    (∀ evs1 evs2,
      showCount w.uid
        (run dev (fresh w, freshEnv cookies nh)
          (Event.start :: (evs1 ++ Event.hideModal :: evs2 ++ [Event.mouseLeave]))).2
      = showCount w.uid
        (run dev (fresh w, freshEnv cookies nh)
          (Event.start :: (evs1 ++ Event.hideModal :: evs2))).2) := by
  have ht : truthy (getCookie (freshEnv cookies nh).cookies (fresh w).id) = false := by
    show truthy (getCookie cookies w.id) = false
    rw [hc]; rfl
  have hs : step dev (fresh w, freshEnv cookies nh) Event.start
      = (fresh w, arm w.uid (freshEnv cookies nh) Trigger.mouseLeave) := by
    show (start dev (fresh w) (freshEnv cookies nh)).state = _
    rw [start_of_armed dev (fresh w) (freshEnv cookies nh) ht hb]
    refine Prod.ext ?_ ?_
    · unfold _bindPopup
      simp [Outcome.state, fresh, hd, hdev]
    · have := bindPopup_reference dev DisplayMode.mouseExit (fresh w) (freshEnv cookies nh) hd
      rw [hdev] at this
      exact this
  have harmed : ExitArmed w.uid (step dev (fresh w, freshEnv cookies nh) Event.start) := by
    rw [hs]
    exact ⟨rfl, rfl, by simp [listenersOf, arm, freshEnv], rfl⟩
  have hzero : showCount w.uid (step dev (fresh w, freshEnv cookies nh) Event.start).2 = 0 := by
    rw [hs]; rfl
  have hcount : ∀ evs, (∀ e ∈ evs, e.isInterlude = true) →
      showCount w.uid
        (run dev (fresh w, freshEnv cookies nh) (Event.start :: evs)).2
      = evs.count Event.mouseLeave := by
    intro evs he
    show showCount w.uid (run dev (step dev (fresh w, freshEnv cookies nh) Event.start) evs).2 = _
    rw [(run_exitArmed dev w.uid evs _ he harmed).2, hzero, Nat.zero_add]
  refine ⟨?_, hcount, ?_, ?_⟩
  · intro evs he
    have h0 : ExitQuiet w.uid (step dev (fresh w, freshEnv cookies nh) Event.start) := by
      rw [hs]; exact ⟨rfl, hd, rfl, rfl⟩
    exact (run_exitQuiet dev hdev w.uid evs _ he h0).2.2.2
  · intro evs he
    have he2 : ∀ e ∈ evs ++ [Event.mouseLeave], e.isInterlude = true := by
      intro e hm
      rcases List.mem_append.1 hm with h | h
      · exact he e h
      · simp only [List.mem_singleton] at h
        rw [h]; rfl
    rw [hcount _ he2, hcount _ he]
    simp
  · intro evs1 evs2
    have e1 : Event.start :: (evs1 ++ Event.hideModal :: evs2 ++ [Event.mouseLeave])
        = (Event.start :: evs1 ++ [Event.hideModal]) ++ evs2 ++ [Event.mouseLeave] := by simp
    have e2 : Event.start :: (evs1 ++ Event.hideModal :: evs2)
        = (Event.start :: evs1 ++ [Event.hideModal]) ++ evs2 := by simp
    rw [e1, e2, run_append, run_append, run_append]
    have hi := run_ackInv dev (Event.start :: evs1) _ (fresh_ackInv w (freshEnv cookies nh))
    have hk := run_keeps_flag dev evs2
      (step dev (run dev (fresh w, freshEnv cookies nh) (Event.start :: evs1)) Event.hideModal)
      (step_ackInv dev _ _ hi) rfl
    exact step_showCount_of_shown dev _ Event.mouseLeave hk.1 hk.2 w.uid

/-- C4 as amended, at a concrete input: a pointer-leave, the `show.bs.modal`
event, a click on the close button and two more pointer-leaves follow the
start, no hide event yet; three pointer-leaves, three `show` requests. -/
theorem C4_mouse_exit_handler_stays_bound_witness :
    exDesktop.isMobile = false ∧ exMouseExitPopup.display = "mouseExit" ∧
    getCookie [] exMouseExitPopup.id = "" ∧
    emptyPopup exDesktop exMouseExitPopup = some false ∧
    (∀ e ∈ [Event.mouseLeave, Event.showModal, Event.closeClick, Event.mouseLeave,
      Event.mouseLeave], e.isInterlude = true) ∧
    showCount exMouseExitPopup.uid
      (run exDesktop (fresh exMouseExitPopup, freshEnv [] 0)
        (Event.start :: [Event.mouseLeave, Event.showModal, Event.closeClick,
          Event.mouseLeave, Event.mouseLeave])).2
      = [Event.mouseLeave, Event.showModal, Event.closeClick, Event.mouseLeave,
          Event.mouseLeave].count Event.mouseLeave :=
  ⟨by decide, by decide, by decide, by decide, by decide,
    (C4_mouse_exit_handler_stays_bound exDesktop exMouseExitPopup [] 0
      (by decide) (by decide) (by decide) (by decide)).2.1 _ (by decide)⟩

/-- C5: `_onHideModal` leaves in the cookie store, under the id of the popup, the
entry with value `cookieValue`, lifetime `consentsDuration * 24 * 60 * 60`
seconds and type `required`; it sets `_popupAlreadyShown` and empties the `src`
of every iframe of every media element. When `cookieValue` is truthy as a
string (the `true` of the widget is), a later `start` of an instance on the same
id that reads this store, whatever the rest of the global state and whether it
returns or throws, computes `_popupAlreadyShown = true` and leaves the global
state as it is. -/
theorem C5_acknowledgement_round_trip (dev : Device) (w next : Popup) (env later : Env)
    (hv : truthy w.cookieValue.toStr = true) (hid : next.id = w.id) :
    (_onHideModal w env).2.cookies.find? (fun c => c.name == CookieName.str w.id)
      = some ⟨CookieName.str w.id, w.cookieValue, w.consentsDuration * 24 * 60 * 60,
          "required"⟩ ∧
    (_onHideModal w env).1._popupAlreadyShown = true ∧
    (∀ m ∈ (_onHideModal w env).1.media, ∀ src ∈ m.iframes, src = "") ∧
    (start dev next
        { later with cookies := (_onHideModal w env).2.cookies }).state.1._popupAlreadyShown
      = true ∧
    (start dev next { later with cookies := (_onHideModal w env).2.cookies }).state.2
      = { later with cookies := (_onHideModal w env).2.cookies } := by
  have hg : truthy (getCookie (_onHideModal w env).2.cookies next.id) = true := by
    rw [hid]
    show truthy (getCookie (setCookie _ _ _ _ _) w.id) = true
    rw [getCookie_setCookie]; exact hv
  refine ⟨find?_setCookie_same _ _ _ _ _, rfl, ?_, ?_, ?_⟩
  · intro m hm src hsrc
    simp only [_onHideModal, List.mem_map] at hm
    obtain ⟨m0, _, rfl⟩ := hm
    simp only [List.mem_map] at hsrc
    obtain ⟨_, _, rfl⟩ := hsrc
    rfl
  · rw [start_state_of_not_armed dev next
      { later with cookies := (_onHideModal w env).2.cookies } (Or.inl hg)]
    exact hg
  · rw [start_state_of_not_armed dev next
      { later with cookies := (_onHideModal w env).2.cookies } (Or.inl hg)]

/-- C5 at a concrete input: the popup with one video and 7 days of consent is
hidden, and a new instance on a newly loaded page reads the store. -/
theorem C5_acknowledgement_round_trip_witness :
    truthy exDelayPopup.cookieValue.toStr = true ∧
    (_onHideModal exDelayPopup (freshEnv [] 0)).2.cookies
      = [⟨CookieName.str "sPopup1", CookieValue.bool true, 604800, "required"⟩] ∧
    (start exDesktop exDelayPopup
      { freshEnv [] 5 with
        cookies := (_onHideModal exDelayPopup (freshEnv [] 0)).2.cookies }).state.2
      = { freshEnv [] 5 with cookies := (_onHideModal exDelayPopup (freshEnv [] 0)).2.cookies } :=
  ⟨by decide, by decide,
    (C5_acknowledgement_round_trip exDesktop exDelayPopup exDelayPopup (freshEnv [] 0)
      (freshEnv [] 5) (by decide) rfl).2.2.2.2⟩

/-- C6: after `_onAcceptClick` of the cookies bar, whatever the query string, the
cookie store holds under the id of the bar the string
`{"required": true, "optional": b}` with the lifetime and type of the base
widget, `b` being true exactly when the id of the event target is
`cookies-consent-all`; `required` is true in both strings, and the value is
never the boolean `true` of the base widget nor its string. -/
theorem C6_accept_click_persists_structured_consent (search : List (String × String))
    (targetId : String) (w : Popup) (env : Env) (hid : w.id = cookies_bar.barId) :
    (cookies_bar._onAcceptClick search targetId w env).2.cookies.find?
        (fun c => c.name == CookieName.str cookies_bar.barId)
      = some ⟨CookieName.str cookies_bar.barId,
          CookieValue.str (cookies_bar.consentValue (targetId == "cookies-consent-all")),
          w.consentsDuration * 24 * 60 * 60, "required"⟩ ∧
    getCookie (cookies_bar._onAcceptClick search targetId w env).2.cookies cookies_bar.barId
      = cookies_bar.consentValue (targetId == "cookies-consent-all") ∧
    cookies_bar.consentValue true = "\x7b\"required\": true, \"optional\": true\x7d" ∧
    cookies_bar.consentValue false = "\x7b\"required\": true, \"optional\": false\x7d" ∧
    (∀ b, CookieValue.str (cookies_bar.consentValue b) ≠ CookieValue.bool true) ∧
    (∀ b, cookies_bar.consentValue b ≠ (CookieValue.bool true).toStr) := by
  have hf : (cookies_bar._onAcceptClick search targetId w env).2.cookies.find?
        (fun c => c.name == CookieName.str cookies_bar.barId)
      = some ⟨CookieName.str cookies_bar.barId,
          CookieValue.str (cookies_bar.consentValue (targetId == "cookies-consent-all")),
          w.consentsDuration * 24 * 60 * 60, "required"⟩ := by
    show (cookies_bar.trackParams _ search).find? _ = _
    rw [find?_trackParams]
    show (setCookie _ (CookieName.str w.id) _ _ _).find? _ = _
    rw [hid]
    exact find?_setCookie_same _ _ _ _ _
  refine ⟨hf, ?_, by decide, by decide, fun b => by simp, fun b => by cases b <;> decide⟩
  unfold getCookie
  rw [hf]
  rfl

/-- C6 at concrete inputs: a click on the accept-all button with a campaign in
the query string, and a click on the accept-essential button. -/
theorem C6_accept_click_persists_structured_consent_witness :
    exCookiesBar.id = cookies_bar.barId ∧
    getCookie (cookies_bar._onAcceptClick [("utm_campaign", "summer")] "cookies-consent-all"
        exCookiesBar (freshEnv [] 0)).2.cookies cookies_bar.barId
      = cookies_bar.consentValue true ∧
    getCookie (cookies_bar._onAcceptClick [] "cookies-consent-essential"
        exCookiesBar (freshEnv [] 0)).2.cookies cookies_bar.barId
      = cookies_bar.consentValue false :=
  ⟨rfl,
    (C6_accept_click_persists_structured_consent [("utm_campaign", "summer")]
      "cookies-consent-all" exCookiesBar (freshEnv [] 0) rfl).2.1,
    (C6_accept_click_persists_structured_consent [] "cookies-consent-essential"
      exCookiesBar (freshEnv [] 0) rfl).2.1⟩

/-- C7, the code at the failing input: with the query string `?constructor=x`,
whose key is none of `utm_campaign`, `utm_source`, `utm_medium`, the test
`key in trackingFields` holds (the object inherits `constructor`) and
`_onHideModal` of the cookies bar writes, after the cookie of the bar, a second
cookie named by the inherited member, with value `x` and 31 days of lifetime.
The same happens for `toString`. With `utm_campaign=summer` the store holds
`odoo_utm_campaign = summer` afterwards, and so does the dataset of the page. -/
theorem C7_inherited_query_key_writes_cookie :
    "constructor" ∉ ["utm_campaign", "utm_source", "utm_medium"] ∧
    cookies_bar.inTrackingFields "constructor" = true ∧
    (cookies_bar._onHideModal [("constructor", "x")] exCookiesBar (freshEnv [] 0)).2.cookies
      = [⟨CookieName.str "website_cookies_bar", CookieValue.bool true, 365 * 24 * 60 * 60,
            "required"⟩,
         ⟨CookieName.inherited "constructor", CookieValue.str "x", 31 * 24 * 60 * 60,
            "required"⟩] ∧
    (cookies_bar._onHideModal [("toString", "y")] exCookiesBar (freshEnv [] 0)).2.cookies.length
      = 2 ∧
    (cookies_bar._onHideModal [("utm_campaign", "summer")] exCookiesBar
        (freshEnv [] 0)).2.cookies
      = [⟨CookieName.str "website_cookies_bar", CookieValue.bool true, 365 * 24 * 60 * 60,
            "required"⟩,
         ⟨CookieName.str "odoo_utm_campaign", CookieValue.str "summer", 31 * 24 * 60 * 60,
            "required"⟩] ∧
    (cookies_bar._onHideModal [("utm_campaign", "summer")] exCookiesBar
        (freshEnv [] 0)).2.utmsDataset = [("odoo_utm_campaign", "summer")] := by
  decide

/-- C8: whatever the state of the wrapper before, after `_onModalShow` its class
list does not contain `d-none`; after `_onModalHidden` it does, and one `scroll`
event has been dispatched exactly when the popup contains a
`.s_popup_no_backdrop` element; after `destroy` outside of the edit mode it
contains `d-none`, and `destroy` in edit mode leaves the class list as it
was. -/
theorem C8_wrapper_hidden_marker_in_sync (w : SharedPopup) :
    (SharedPopupWidget._onModalShow w).classList.contains "d-none" = false ∧
    (SharedPopupWidget._onModalHidden w).classList.contains "d-none" = true ∧
    (SharedPopupWidget._onModalHidden w).scrollEvents
      = w.scrollEvents + (if w.hasNoBackdrop then 1 else 0) ∧
    (SharedPopupWidget.destroy { w with editableMode := false }).classList.contains "d-none"
      = true ∧
    (SharedPopupWidget.destroy { w with editableMode := true }).classList = w.classList := by
  have hadd : ∀ cl : List String, (classListAdd cl "d-none").contains "d-none" = true := by
    intro cl
    unfold classListAdd
    split
    · rename_i h; exact h
    · simp
  refine ⟨?_, ?_, ?_, ?_, rfl⟩
  · simp [SharedPopupWidget._onModalShow, classListRemove]
  · unfold SharedPopupWidget._onModalHidden
    exact hadd _
  · unfold SharedPopupWidget._onModalHidden
    cases w.hasNoBackdrop <;> rfl
  · exact hadd _

/-- C9, the code at the failing input: B binds its `mouseleave` handler in
`mouseExit` mode, then A is destroyed. The `off` call of `destroy` (line 109)
takes the handler of B off `document` too, and the next pointer-leave requests
nothing, where without the `destroy` of A it requests the modal of B. The
other two statements of `destroy` touch the timer and the modal of A only. -/
theorem C9_destroy_unbinds_other_popup :
    exDelayPopup.uid ≠ exMouseExitPopup.uid ∧
    listenersOf exMouseExitPopup.uid
      (Page.run exDesktop (Page.init exDelayPopup exMouseExitPopup [] 0)
        [PageEvent.b Op.start]).env = [exMouseExitPopup.uid] ∧
    listenersOf exMouseExitPopup.uid
      (Page.run exDesktop (Page.init exDelayPopup exMouseExitPopup [] 0)
        [PageEvent.b Op.start, PageEvent.a Op.destroy]).env = [] ∧
    showCount exMouseExitPopup.uid
      (Page.run exDesktop (Page.init exDelayPopup exMouseExitPopup [] 0)
        [PageEvent.b Op.start, PageEvent.a Op.destroy, PageEvent.mouseLeave]).env = 0 ∧
    showCount exMouseExitPopup.uid
      (Page.run exDesktop (Page.init exDelayPopup exMouseExitPopup [] 0)
        [PageEvent.b Op.start, PageEvent.mouseLeave]).env = 1 := by
  decide

/-- The frame of the operations of one popup: on every page two distinct
instances A and B reach from a newly loaded page, an operation of A leaves the
fields of B, the pending timers of B and the modal requests of B as they are,
and changes no cookie but the one under the id of A. Every operation but
`destroy` also leaves the `mouseleave` handlers of B bound; `destroy` of A
unbinds every handler under `mouseleave.open_popup`. -/
theorem operations_of_one_popup_frame (dev : Device) (a b : Popup)
    (cookies : List Cookie) (nh : Nat) (evs : List PageEvent) (op : Op) (p : Page)
    (hne : a.uid ≠ b.uid) (hp : p = Page.run dev (Page.init a b cookies nh) evs) :
    (p.step dev (PageEvent.a op)).b = p.b ∧
    timersOf p.b.uid (p.step dev (PageEvent.a op)).env = timersOf p.b.uid p.env ∧
    (op ≠ Op.destroy →
      listenersOf p.b.uid (p.step dev (PageEvent.a op)).env = listenersOf p.b.uid p.env) ∧
    (op = Op.destroy →
      (p.step dev (PageEvent.a op)).env.mouseleave = [] ∧
      showCount p.b.uid ((p.step dev (PageEvent.a op)).step dev PageEvent.mouseLeave).env
        = showCount p.b.uid p.env) ∧
    (p.step dev (PageEvent.a op)).env.modalReqs.filter (fun r => r.1 == p.b.uid)
      = p.env.modalReqs.filter (fun r => r.1 == p.b.uid) ∧
    (∀ k, k ≠ p.a.id →
      getCookie (p.step dev (PageEvent.a op)).env.cookies k = getCookie p.env.cookies k) := by
  have hok : p.HandlesOk := by
    rw [hp]; exact run_handles dev evs _ (init_handles a b cookies nh hne)
  obtain ⟨hab, _, ha, _⟩ := hok
  obtain ⟨⟨l, hl, hlu⟩, hm1, hm2, hck⟩ := apply_frame dev op p.a p.env
  have hreq : (p.step dev (PageEvent.a op)).env.modalReqs.filter (fun r => r.1 == p.b.uid)
      = p.env.modalReqs.filter (fun r => r.1 == p.b.uid) := by
    show (op.apply dev p.a p.env).2.modalReqs.filter _ = _
    rw [hl, List.filter_append]
    have : l.filter (fun r => r.1 == p.b.uid) = [] := by
      rw [List.filter_eq_nil_iff]
      intro r hr
      rw [hlu r hr]
      simpa using hab
    rw [this, List.append_nil]
  have hcount : showCount p.b.uid (p.step dev (PageEvent.a op)).env = showCount p.b.uid p.env := by
    unfold showCount
    show ((op.apply dev p.a p.env).2.modalReqs.filter _).length = _
    rw [hl, List.filter_append]
    have : l.filter (fun r => r == (p.b.uid, ModalReq.showReq)) = [] := by
      rw [List.filter_eq_nil_iff]
      intro r hr
      have h1 := hlu r hr
      intro h2
      have h3 : r = (p.b.uid, ModalReq.showReq) := by simpa using h2
      rw [h3] at h1
      exact hab h1.symm
    rw [this, List.append_nil]
  refine ⟨rfl, ?_, ?_, ?_, hreq, ?_⟩
  · exact timerEffect_timersOf p.a p.env _ p.b.uid (apply_timerEffect dev op p.a p.env) hab
      (fun h hh => (ha h hh).2)
  · intro hd
    show listenersOf p.b.uid (op.apply dev p.a p.env).2 = _
    unfold listenersOf
    rcases hm1 hd with h | h
    · rw [h]
    · rw [h, List.filter_append]
      have : ((p.a.uid == p.b.uid) = false) := by simpa using hab
      simp [this]
  · intro hd
    have hnil : (p.step dev (PageEvent.a op)).env.mouseleave = [] := hm2 hd
    refine ⟨hnil, ?_⟩
    have : (p.step dev (PageEvent.a op)).step dev PageEvent.mouseLeave
        = p.step dev (PageEvent.a op) := by
      show List.foldl Page.callShowPopup _ (p.step dev (PageEvent.a op)).env.mouseleave = _
      rw [hnil]; rfl
    rw [this]; exact hcount
  · intro k hk
    show getCookie (op.apply dev p.a p.env).2.cookies k = _
    rcases hck with h | ⟨v, ttl, ty, h⟩
    · rw [h]
    · rw [h]
      unfold getCookie
      rw [find?_setCookie_ne]
      intro heq
      exact hk (CookieName.str.inj heq).symm

/-- C10, the code at the failing input: in edit mode the widget starts on a modal
that carries `show`, then the `shown.bs.modal` event arrives, so that
`_addModalNoBackdropEvents` has run twice; after the hide event, and also after
`destroy`, the first `ResizeObserver` (identity 1) is still connected, the field
`resizeObserver` having held the second one only. The same happens outside of
the edit mode on two `shown.bs.modal` events in a row. The `resize` listener
itself is removed in each case. -/
theorem C10_replaced_observer_stays_connected :
    (noBackdropPopupWidget.run (noBackdropPopupWidget.init true)
      [noBackdropPopupWidget.Event.start true false,
       noBackdropPopupWidget.Event.shown false,
       noBackdropPopupWidget.Event.hide]).2.observers = [1] ∧
    (noBackdropPopupWidget.run (noBackdropPopupWidget.init true)
      [noBackdropPopupWidget.Event.start true false,
       noBackdropPopupWidget.Event.shown false,
       noBackdropPopupWidget.Event.hide,
       noBackdropPopupWidget.Event.destroy]).2.observers = [1] ∧
    (noBackdropPopupWidget.run (noBackdropPopupWidget.init false)
      [noBackdropPopupWidget.Event.start false false,
       noBackdropPopupWidget.Event.shown false,
       noBackdropPopupWidget.Event.shown false,
       noBackdropPopupWidget.Event.hide]).2.observers = [1] ∧
    (noBackdropPopupWidget.run (noBackdropPopupWidget.init true)
      [noBackdropPopupWidget.Event.start true false,
       noBackdropPopupWidget.Event.shown false,
       noBackdropPopupWidget.Event.hide]).2.resizeListeners = [] ∧
    (noBackdropPopupWidget.run (noBackdropPopupWidget.init false)
      [noBackdropPopupWidget.Event.start false false,
       noBackdropPopupWidget.Event.shown false,
       noBackdropPopupWidget.Event.shown false,
       noBackdropPopupWidget.Event.hide]).2.resizeListeners = [] := by
  decide

end SPopup
